import Mathlib

/-!
A shallow embedding of the pull-up repetition counter from
`backend/models/pull_up_counter.py` (class `FixedPullUpCounter`), together with
proofs of the behavioural properties stated in the design specification.

Scalar signals (keypoint coordinates, confidences, differentials, the decaying
confirmation counters and timestamps) are modelled as rationals; the Python
floats carry exact small values in every property of interest.  The two bounded
bounded deque buffers are modelled as lists together with an append
operation that evicts from the front past capacity.  The single point where the
Python code can raise on a supplied frame — indexing `keypoints[5..10]` — is
modelled with optional lookup, and the surrounding `try/except` as the
corresponding error branch.
-/

/-- Direction labels used by the classifier (`"stable" | "up" | "down"`,
plus the `"starting"` label returned while fewer than 5 samples exist). -/
inductive Direction : Type
  | stable
  | up
  | down
  | starting
deriving DecidableEq, Repr

/-- One entry of the direction-change log: the Python tuple
`(confirmed_direction, time.time(), current_diff)`. -/
structure DirEvent : Type where
  dir : Direction
  timestamp : ℚ
  diff : ℚ
deriving DecidableEq, Repr

/-- Display / outcome labels returned by `analyze_pose` and stored in
`self.position`. -/
inductive Status : Type
  | neutral
  | no_person
  | low_confidence
  | pulling_up
  | lowering_down
  | stable
  | error
deriving DecidableEq, Repr

/-- One pose keypoint `(x, y, confidence)`. -/
structure Keypoint : Type where
  x : ℚ
  y : ℚ
  conf : ℚ
deriving DecidableEq, Repr

/-- Config value `min_confidence` (0.3). -/
def config.min_confidence : ℚ := 3 / 10

/-- Config value `rep_cooldown` (2.0 s). -/
def config.rep_cooldown : ℚ := 2

/-- Config value `min_consecutive_frames` (3), compared against the
rational-valued decaying counters. -/
def config.min_consecutive_frames : ℚ := 3

/-- Config value `movement_threshold` (8). -/
def config.movement_threshold : ℚ := 8

/-- Config value `min_movement_range` (30). -/
def config.min_movement_range : ℚ := 30

/-- Append to a bounded deque of capacity `n`: add `x` at the back and drop from the
front whatever exceeds the capacity. -/
def dequeAppend {α : Type} (n : ℕ) (l : List α) (x : α) : List α :=
  (l ++ [x]).drop (l.length + 1 - n)

/-- The last two entries of the log in order, `list(d)[-2:]` when
`len(d) >= 2`: `some (second-to-last, last)`, or `none` when fewer than two
entries exist. -/
def lastTwo (l : List DirEvent) : Option (DirEvent × DirEvent) :=
  match l.reverse with
  | b :: a :: _ => some (a, b)
  | _ => none

/-- The mutable state of a `FixedPullUpCounter` instance (its `__init__`
attributes). -/
structure FixedPullUpCounter : Type where
  count : ℕ
  position : Status
  position_history : List ℚ
  direction_history : List DirEvent
  last_rep_time : ℚ
  current_direction : Direction
  consecutive_up_frames : ℚ
  consecutive_down_frames : ℚ
  frame_count : ℕ
deriving DecidableEq, Repr

/-- The freshly constructed counter (`FixedPullUpCounter.__init__`). -/
def FixedPullUpCounter.init : FixedPullUpCounter where
  count := 0
  position := Status.neutral
  position_history := []
  direction_history := []
  last_rep_time := 0
  current_direction := Direction.stable
  consecutive_up_frames := 0
  consecutive_down_frames := 0
  frame_count := 0

/-- Raw direction of the 5-sample net movement against the symmetric
`movement_threshold` (lines 40–44 of `detect_direction_change`). -/
def classify_movement (movement : ℚ) : Direction :=
  if movement > config.movement_threshold then Direction.up
  else if movement < -config.movement_threshold then Direction.down
  else Direction.stable

/-- Update of `consecutive_up_frames` (lines 46–58): increment on `up`, zero on
`down`, decay a positive counter by 0.5 on `stable`. -/
def step_up_counter (new_direction : Direction) (cu : ℚ) : ℚ :=
  if new_direction = Direction.up then cu + 1
  else if new_direction = Direction.down then 0
  else if cu > 0 then max 0 (cu - 1 / 2)
  else cu

/-- Update of `consecutive_down_frames` (lines 46–58): zero on `up`, increment
on `down`, decay a positive counter by 0.5 on `stable`. -/
def step_down_counter (new_direction : Direction) (cd : ℚ) : ℚ :=
  if new_direction = Direction.up then 0
  else if new_direction = Direction.down then cd + 1
  else if cd > 0 then max 0 (cd - 1 / 2)
  else cd

/-- Confirmation with hysteresis (lines 60–67): `up` once `cu` reaches the
threshold, else `down` once `cd` does, else `stable` when both counters are
exactly zero, else the previously confirmed direction. -/
def confirm_direction (cu cd : ℚ) (current : Direction) : Direction :=
  if cu ≥ config.min_consecutive_frames then Direction.up
  else if cd ≥ config.min_consecutive_frames then Direction.down
  else if cu = 0 ∧ cd = 0 then Direction.stable
  else current

/-- Model of `FixedPullUpCounter.detect_direction_change(self, current_diff)`.  The
wall-clock reading used for the log timestamp is passed explicitly as `now`.
Returns the Python triple `(confirmed_direction, abs(movement))` together with
the updated state. -/
def FixedPullUpCounter.detect_direction_change (s : FixedPullUpCounter)
    (current_diff now : ℚ) : Direction × ℚ × FixedPullUpCounter :=
  let hist := dequeAppend 30 s.position_history current_diff
  if hist.length < 5 then
    (Direction.starting, 0, { s with position_history := hist })
  else
    let recent := hist.drop (hist.length - 5)
    let movement := recent.getLastD 0 - recent.headD 0
    let new_direction := classify_movement movement
    let cu := step_up_counter new_direction s.consecutive_up_frames
    let cd := step_down_counter new_direction s.consecutive_down_frames
    let confirmed := confirm_direction cu cd s.current_direction
    if confirmed ≠ s.current_direction then
      (confirmed, |movement|,
        { s with position_history := hist
                 direction_history :=
                   dequeAppend 10 s.direction_history ⟨confirmed, now, current_diff⟩
                 current_direction := confirmed
                 consecutive_up_frames := cu
                 consecutive_down_frames := cd })
    else
      (confirmed, |movement|,
        { s with position_history := hist
                 consecutive_up_frames := cu
                 consecutive_down_frames := cd })

/-- The rep-counting block of `analyze_pose` (lines 105–134; identical to the
standalone `check_for_rep` of the motion-detection test script): if the
cooldown has elapsed and the last two logged transitions form a
`down`-then-`up` pair spanning more than `min_movement_range`, increment the
count, stamp `last_rep_time`, and clear the log. -/
def FixedPullUpCounter.check_for_rep (s : FixedPullUpCounter)
    (current_time : ℚ) : FixedPullUpCounter :=
  if current_time - s.last_rep_time > config.rep_cooldown then
    match lastTwo s.direction_history with
    | some (e0, e1) =>
      if e0.dir = Direction.down ∧ e1.dir = Direction.up then
        if |e1.diff - e0.diff| > config.min_movement_range then
          { s with count := s.count + 1
                   last_rep_time := current_time
                   direction_history := [] }
        else s
      else s
    | none => s
  else s

/-- Model of the `self.position` display label update at the end of
`analyze_pose`). -/
def FixedPullUpCounter.set_position (s : FixedPullUpCounter) (p : Status) :
    FixedPullUpCounter :=
  { s with position := p }

/-- Model of `FixedPullUpCounter.analyze_pose(self, keypoints)`.  `keypoints` is `none`
for Python `None`, otherwise the list of `(x, y, confidence)` rows; `now` is
the wall clock for this frame.  Returns `(count, label)` with the updated
state.  A missing index 5/6/9/10 is the one failure the `try` block can catch
on a supplied frame, and it happens before any state is touched. -/
def FixedPullUpCounter.analyze_pose (s : FixedPullUpCounter)
    (keypoints : Option (List Keypoint)) (now : ℚ) :
    (ℕ × Status) × FixedPullUpCounter :=
  match keypoints with
  | none => ((s.count, Status.no_person), s)
  | some kps =>
    if kps.length = 0 then ((s.count, Status.no_person), s)
    else
      match kps[5]?, kps[6]?, kps[9]?, kps[10]? with
      | some left_shoulder, some right_shoulder, some left_wrist, some right_wrist =>
        let min_conf :=
          min (min left_shoulder.conf right_shoulder.conf)
            (min left_wrist.conf right_wrist.conf)
        if min_conf < config.min_confidence then
          ((s.count, Status.low_confidence), s)
        else
          let shoulder_y := (left_shoulder.y + right_shoulder.y) / 2
          let wrist_y := (left_wrist.y + right_wrist.y) / 2
          let wrist_shoulder_diff := wrist_y - shoulder_y
          let r := s.detect_direction_change wrist_shoulder_diff now
          let s2 := r.2.2.check_for_rep now
          let position :=
            if r.1 = Direction.up then Status.pulling_up
            else if r.1 = Direction.down then Status.lowering_down
            else Status.stable
          let s3 := s2.set_position position
          ((s3.count, position), s3)
      | _, _, _, _ => ((s.count, Status.error), s)

/-- Model of `FixedPullUpCounter.reset(self)`: restore every attribute to its initial
value. -/
def FixedPullUpCounter.reset (_ : FixedPullUpCounter) : FixedPullUpCounter where
  count := 0
  position := Status.neutral
  position_history := []
  direction_history := []
  last_rep_time := 0
  current_direction := Direction.stable
  consecutive_up_frames := 0
  consecutive_down_frames := 0
  frame_count := 0

/-- Process a sequence of frames (keypoints paired with a timestamp), threading
the state. -/
def FixedPullUpCounter.runFrames (s : FixedPullUpCounter)
    (frames : List (Option (List Keypoint) × ℚ)) : FixedPullUpCounter :=
  frames.foldl (fun st f => (st.analyze_pose f.1 f.2).2) s

/-- States reachable from a fresh counter by any interleaving of
`analyze_pose` and `reset` calls. -/
inductive Reachable : FixedPullUpCounter → Prop
  | init : Reachable FixedPullUpCounter.init
  | step (s : FixedPullUpCounter) (kps : Option (List Keypoint)) (now : ℚ) :
      Reachable s → Reachable (s.analyze_pose kps now).2
  | reset (s : FixedPullUpCounter) : Reachable s → Reachable s.reset

/-- Adjacent entries of a log all carry distinct direction labels. -/
def adjacentDistinct : List DirEvent → Bool
  | [] => true
  | [_] => true
  | a :: b :: t => decide (a.dir ≠ b.dir) && adjacentDistinct (b :: t)

/-- Keypoint row realizing a target differential `d`: indices 5/6 (shoulders)
at `y = 0`, indices 9/10 (wrists) at `y = d`, every confidence 1. -/
def kpRow (d : ℚ) : List Keypoint :=
  [⟨0,0,1⟩, ⟨0,0,1⟩, ⟨0,0,1⟩, ⟨0,0,1⟩, ⟨0,0,1⟩,
   ⟨0,0,1⟩, ⟨0,0,1⟩, ⟨0,0,1⟩, ⟨0,0,1⟩, ⟨0,d,1⟩, ⟨0,d,1⟩]

/-- The differential window of Scenario A. -/
def scenarioDiffs : List ℚ := [0, 0, 0, 0, 0, 20, 20, 20, 20, 20, 0]

/-- Scenario A frames: full-confidence keypoints realizing `scenarioDiffs`,
3 seconds apart (so every frame is outside the 2-second cooldown). -/
def scenarioA : List (Option (List Keypoint) × ℚ) :=
  (List.range 11).map (fun i => (some (kpRow (scenarioDiffs.getD i 0)), 3 * ((i : ℚ) + 1)))

/-- State of the counter after frame 1 of Scenario A. -/
def sA1 : FixedPullUpCounter :=
  ⟨0, Status.stable, [0], [], 0, Direction.stable, 0, 0, 0⟩

/-- State of the counter after frame 2 of Scenario A. -/
def sA2 : FixedPullUpCounter :=
  ⟨0, Status.stable, [0, 0], [], 0, Direction.stable, 0, 0, 0⟩

/-- State of the counter after frame 3 of Scenario A. -/
def sA3 : FixedPullUpCounter :=
  ⟨0, Status.stable, [0, 0, 0], [], 0, Direction.stable, 0, 0, 0⟩

/-- State of the counter after frame 4 of Scenario A. -/
def sA4 : FixedPullUpCounter :=
  ⟨0, Status.stable, [0, 0, 0, 0], [], 0, Direction.stable, 0, 0, 0⟩

/-- State of the counter after frame 5 of Scenario A. -/
def sA5 : FixedPullUpCounter :=
  ⟨0, Status.stable, [0, 0, 0, 0, 0], [], 0, Direction.stable, 0, 0, 0⟩

/-- State of the counter after frame 6 of Scenario A. -/
def sA6 : FixedPullUpCounter :=
  ⟨0, Status.stable, [0, 0, 0, 0, 0, 20], [], 0, Direction.stable, 1, 0, 0⟩

/-- State of the counter after frame 7 of Scenario A. -/
def sA7 : FixedPullUpCounter :=
  ⟨0, Status.stable, [0, 0, 0, 0, 0, 20, 20], [], 0, Direction.stable, 2, 0, 0⟩

/-- State of the counter after frame 8 of Scenario A. -/
def sA8 : FixedPullUpCounter :=
  ⟨0, Status.pulling_up, [0, 0, 0, 0, 0, 20, 20, 20], [⟨Direction.up, 24, 20⟩], 0, Direction.up, 3, 0, 0⟩

/-- State of the counter after frame 9 of Scenario A. -/
def sA9 : FixedPullUpCounter :=
  ⟨0, Status.pulling_up, [0, 0, 0, 0, 0, 20, 20, 20, 20], [⟨Direction.up, 24, 20⟩], 0, Direction.up, 4, 0, 0⟩

/-- State of the counter after frame 10 of Scenario A. -/
def sA10 : FixedPullUpCounter :=
  ⟨0, Status.pulling_up, [0, 0, 0, 0, 0, 20, 20, 20, 20, 20], [⟨Direction.up, 24, 20⟩], 0, Direction.up, 7/2, 0, 0⟩

/-- State of the counter after frame 11 of Scenario A. -/
def sA11 : FixedPullUpCounter :=
  ⟨0, Status.pulling_up, [0, 0, 0, 0, 0, 20, 20, 20, 20, 20, 0], [⟨Direction.up, 24, 20⟩], 0, Direction.up, 0, 1, 0⟩

/-- Sign and mutual-exclusion invariant on the two confirmation counters. -/
def CountersInv (s : FixedPullUpCounter) : Prop :=
  0 ≤ s.consecutive_up_frames ∧ 0 ≤ s.consecutive_down_frames ∧
    (s.consecutive_up_frames = 0 ∨ s.consecutive_down_frames = 0)

/-- Direction-log invariant: adjacent entries carry distinct labels, and the
label of the last entry is the currently confirmed direction. -/
def DirLogInv (s : FixedPullUpCounter) : Prop :=
  adjacentDistinct s.direction_history = true ∧
    ∀ e, s.direction_history.getLast? = some e → e.dir = s.current_direction

/-- Process a sequence of raw differential values through the classifier
alone, threading the state (the log timestamp is irrelevant here and fixed
at 0). -/
def FixedPullUpCounter.runDiffs (s : FixedPullUpCounter) (ds : List ℚ) :
    FixedPullUpCounter :=
  ds.foldl (fun st d => (st.detect_direction_change d 0).2.2) s

/-- The raw per-frame classification each frame of `ds` receives inside
`detect_direction_change`: the rolling window is threaded exactly as the code
does, and each frame is labelled `starting` while fewer than 5 samples exist,
otherwise by `classify_movement` of its 5-sample net movement. -/
def rawDirections (ds : List ℚ) : List Direction :=
  (ds.foldl (fun (acc : List ℚ × List Direction) d =>
    let hist := dequeAppend 30 acc.1 d
    let dir :=
      if hist.length < 5 then Direction.starting
      else
        let recent := hist.drop (hist.length - 5)
        classify_movement (recent.getLastD 0 - recent.headD 0)
    (hist, acc.2 ++ [dir])) ([], [])).2

/-- Premise of the confirmation-gate claim, as a decidable check: the
classification trace never contains 3 consecutive equal `up` labels or 3
consecutive equal `down` labels. -/
def noThreeConsecutiveQualifying : List Direction → Bool
  | d1 :: d2 :: d3 :: t =>
      !(decide (d1 = d2) && decide (d2 = d3) &&
          (decide (d1 = Direction.up) || decide (d1 = Direction.down))) &&
        noThreeConsecutiveQualifying (d2 :: d3 :: t)
  | _ => true

/-- Differential window on which the half-step decay lets a direction confirm
without 3 consecutive qualifying frames. -/
def decayDiffs : List ℚ := [0, 0, 10, 0, 10, 10, 15, 20, 20]

/-- State of the counter after frame 1 of the decay window. -/
def sB1 : FixedPullUpCounter :=
  ⟨0, Status.neutral, [0], [], 0, Direction.stable, 0, 0, 0⟩

/-- State of the counter after frame 2 of the decay window. -/
def sB2 : FixedPullUpCounter :=
  ⟨0, Status.neutral, [0, 0], [], 0, Direction.stable, 0, 0, 0⟩

/-- State of the counter after frame 3 of the decay window. -/
def sB3 : FixedPullUpCounter :=
  ⟨0, Status.neutral, [0, 0, 10], [], 0, Direction.stable, 0, 0, 0⟩

/-- State of the counter after frame 4 of the decay window. -/
def sB4 : FixedPullUpCounter :=
  ⟨0, Status.neutral, [0, 0, 10, 0], [], 0, Direction.stable, 0, 0, 0⟩

/-- State of the counter after frame 5 of the decay window. -/
def sB5 : FixedPullUpCounter :=
  ⟨0, Status.neutral, [0, 0, 10, 0, 10], [], 0, Direction.stable, 1, 0, 0⟩

/-- State of the counter after frame 6 of the decay window. -/
def sB6 : FixedPullUpCounter :=
  ⟨0, Status.neutral, [0, 0, 10, 0, 10, 10], [], 0, Direction.stable, 2, 0, 0⟩

/-- State of the counter after frame 7 of the decay window (a sub-threshold
frame: the counter decays from 2 to 3/2 instead of resetting). -/
def sB7 : FixedPullUpCounter :=
  ⟨0, Status.neutral, [0, 0, 10, 0, 10, 10, 15], [], 0, Direction.stable, 3/2, 0, 0⟩

/-- State of the counter after frame 8 of the decay window. -/
def sB8 : FixedPullUpCounter :=
  ⟨0, Status.neutral, [0, 0, 10, 0, 10, 10, 15, 20], [], 0, Direction.stable, 5/2, 0, 0⟩

/-- State of the counter after frame 9 of the decay window: the counter
reaches 7/2 ≥ 3 and the confirmed direction flips to `up`. -/
def sB9 : FixedPullUpCounter :=
  ⟨0, Status.neutral, [0, 0, 10, 0, 10, 10, 15, 20, 20],
    [⟨Direction.up, 0, 20⟩], 0, Direction.up, 7/2, 0, 0⟩


lemma stepA1 : (FixedPullUpCounter.init.analyze_pose (some (kpRow 0)) 3).2 = sA1 := by
  simp [FixedPullUpCounter.analyze_pose, FixedPullUpCounter.detect_direction_change,
    FixedPullUpCounter.check_for_rep, FixedPullUpCounter.set_position, FixedPullUpCounter.init,
    classify_movement, step_up_counter, step_down_counter, confirm_direction,
    kpRow, dequeAppend, lastTwo, List.getLastD, List.headD, config.min_confidence,
    config.rep_cooldown, config.min_consecutive_frames, config.movement_threshold,
    config.min_movement_range, sA1,
    show ((0:ℚ) ⊔ (4 - 2⁻¹)) = 7/2 by rw [sup_eq_max]; norm_num [max_def],
    show ¬((4:ℚ) - 2⁻¹ < 3) by norm_num,
    show ¬((4:ℚ) ≤ 2⁻¹) by norm_num,
    show (3:ℚ) ≤ 4 - 2⁻¹ by norm_num,
    show (8:ℚ) < 20 by norm_num,
    show ¬((8:ℚ) < 0) by norm_num,
    show ¬((8:ℚ) < -20) by norm_num,
    show ¬((0:ℚ) < -8) by norm_num,
    show ¬((20:ℚ) < -8) by norm_num,
    show (-20:ℚ) < -8 by norm_num,
    show ¬((3:ℚ) ≤ 0) by norm_num,
    show ¬((3:ℚ) ≤ 1) by norm_num,
    show ¬((3:ℚ) ≤ 2) by norm_num,
    show (3:ℚ) ≤ 3 by norm_num,
    show (3:ℚ) ≤ 4 by norm_num,
    show (3:ℚ) ≤ 7/2 by norm_num,
    show max (0:ℚ) (4 - 1/2) = 7/2 by norm_num [max_def],
    show ¬((1:ℚ) < 3/10) by norm_num,
    show (0:ℚ) < 4 by norm_num,
    show ¬((7/2:ℚ) = 0) by norm_num,
    show ¬((0:ℚ) < 0) by norm_num,
    show ¬((1:ℚ) = 0) by norm_num,
    show ¬((2:ℚ) = 0) by norm_num,
    show ¬((4:ℚ) = 0) by norm_num,
    show ¬((20:ℚ) = 0) by norm_num,
    show (0:ℚ) + 1 = 1 by norm_num,
    show (1:ℚ) + 1 = 2 by norm_num,
    show (2:ℚ) + 1 = 3 by norm_num,
    show (3:ℚ) + 1 = 4 by norm_num,
    show ((20:ℚ) + 20) / 2 = 20 by norm_num,
    show (2:ℚ) < 3 by norm_num,
    show (2:ℚ) < 6 by norm_num,
    show (2:ℚ) < 9 by norm_num,
    show (2:ℚ) < 12 by norm_num,
    show (2:ℚ) < 15 by norm_num,
    show (2:ℚ) < 18 by norm_num,
    show (2:ℚ) < 21 by norm_num,
    show (2:ℚ) < 24 by norm_num,
    show (2:ℚ) < 27 by norm_num,
    show (2:ℚ) < 30 by norm_num,
    show (2:ℚ) < 33 by norm_num]

lemma stepA2 : (sA1.analyze_pose (some (kpRow 0)) 6).2 = sA2 := by
  simp [FixedPullUpCounter.analyze_pose, FixedPullUpCounter.detect_direction_change,
    FixedPullUpCounter.check_for_rep, FixedPullUpCounter.set_position, FixedPullUpCounter.init,
    classify_movement, step_up_counter, step_down_counter, confirm_direction,
    kpRow, dequeAppend, lastTwo, List.getLastD, List.headD, config.min_confidence,
    config.rep_cooldown, config.min_consecutive_frames, config.movement_threshold,
    config.min_movement_range, sA1, sA2,
    show ((0:ℚ) ⊔ (4 - 2⁻¹)) = 7/2 by rw [sup_eq_max]; norm_num [max_def],
    show ¬((4:ℚ) - 2⁻¹ < 3) by norm_num,
    show ¬((4:ℚ) ≤ 2⁻¹) by norm_num,
    show (3:ℚ) ≤ 4 - 2⁻¹ by norm_num,
    show (8:ℚ) < 20 by norm_num,
    show ¬((8:ℚ) < 0) by norm_num,
    show ¬((8:ℚ) < -20) by norm_num,
    show ¬((0:ℚ) < -8) by norm_num,
    show ¬((20:ℚ) < -8) by norm_num,
    show (-20:ℚ) < -8 by norm_num,
    show ¬((3:ℚ) ≤ 0) by norm_num,
    show ¬((3:ℚ) ≤ 1) by norm_num,
    show ¬((3:ℚ) ≤ 2) by norm_num,
    show (3:ℚ) ≤ 3 by norm_num,
    show (3:ℚ) ≤ 4 by norm_num,
    show (3:ℚ) ≤ 7/2 by norm_num,
    show max (0:ℚ) (4 - 1/2) = 7/2 by norm_num [max_def],
    show ¬((1:ℚ) < 3/10) by norm_num,
    show (0:ℚ) < 4 by norm_num,
    show ¬((7/2:ℚ) = 0) by norm_num,
    show ¬((0:ℚ) < 0) by norm_num,
    show ¬((1:ℚ) = 0) by norm_num,
    show ¬((2:ℚ) = 0) by norm_num,
    show ¬((4:ℚ) = 0) by norm_num,
    show ¬((20:ℚ) = 0) by norm_num,
    show (0:ℚ) + 1 = 1 by norm_num,
    show (1:ℚ) + 1 = 2 by norm_num,
    show (2:ℚ) + 1 = 3 by norm_num,
    show (3:ℚ) + 1 = 4 by norm_num,
    show ((20:ℚ) + 20) / 2 = 20 by norm_num,
    show (2:ℚ) < 3 by norm_num,
    show (2:ℚ) < 6 by norm_num,
    show (2:ℚ) < 9 by norm_num,
    show (2:ℚ) < 12 by norm_num,
    show (2:ℚ) < 15 by norm_num,
    show (2:ℚ) < 18 by norm_num,
    show (2:ℚ) < 21 by norm_num,
    show (2:ℚ) < 24 by norm_num,
    show (2:ℚ) < 27 by norm_num,
    show (2:ℚ) < 30 by norm_num,
    show (2:ℚ) < 33 by norm_num]

lemma stepA3 : (sA2.analyze_pose (some (kpRow 0)) 9).2 = sA3 := by
  simp [FixedPullUpCounter.analyze_pose, FixedPullUpCounter.detect_direction_change,
    FixedPullUpCounter.check_for_rep, FixedPullUpCounter.set_position, FixedPullUpCounter.init,
    classify_movement, step_up_counter, step_down_counter, confirm_direction,
    kpRow, dequeAppend, lastTwo, List.getLastD, List.headD, config.min_confidence,
    config.rep_cooldown, config.min_consecutive_frames, config.movement_threshold,
    config.min_movement_range, sA2, sA3,
    show ((0:ℚ) ⊔ (4 - 2⁻¹)) = 7/2 by rw [sup_eq_max]; norm_num [max_def],
    show ¬((4:ℚ) - 2⁻¹ < 3) by norm_num,
    show ¬((4:ℚ) ≤ 2⁻¹) by norm_num,
    show (3:ℚ) ≤ 4 - 2⁻¹ by norm_num,
    show (8:ℚ) < 20 by norm_num,
    show ¬((8:ℚ) < 0) by norm_num,
    show ¬((8:ℚ) < -20) by norm_num,
    show ¬((0:ℚ) < -8) by norm_num,
    show ¬((20:ℚ) < -8) by norm_num,
    show (-20:ℚ) < -8 by norm_num,
    show ¬((3:ℚ) ≤ 0) by norm_num,
    show ¬((3:ℚ) ≤ 1) by norm_num,
    show ¬((3:ℚ) ≤ 2) by norm_num,
    show (3:ℚ) ≤ 3 by norm_num,
    show (3:ℚ) ≤ 4 by norm_num,
    show (3:ℚ) ≤ 7/2 by norm_num,
    show max (0:ℚ) (4 - 1/2) = 7/2 by norm_num [max_def],
    show ¬((1:ℚ) < 3/10) by norm_num,
    show (0:ℚ) < 4 by norm_num,
    show ¬((7/2:ℚ) = 0) by norm_num,
    show ¬((0:ℚ) < 0) by norm_num,
    show ¬((1:ℚ) = 0) by norm_num,
    show ¬((2:ℚ) = 0) by norm_num,
    show ¬((4:ℚ) = 0) by norm_num,
    show ¬((20:ℚ) = 0) by norm_num,
    show (0:ℚ) + 1 = 1 by norm_num,
    show (1:ℚ) + 1 = 2 by norm_num,
    show (2:ℚ) + 1 = 3 by norm_num,
    show (3:ℚ) + 1 = 4 by norm_num,
    show ((20:ℚ) + 20) / 2 = 20 by norm_num,
    show (2:ℚ) < 3 by norm_num,
    show (2:ℚ) < 6 by norm_num,
    show (2:ℚ) < 9 by norm_num,
    show (2:ℚ) < 12 by norm_num,
    show (2:ℚ) < 15 by norm_num,
    show (2:ℚ) < 18 by norm_num,
    show (2:ℚ) < 21 by norm_num,
    show (2:ℚ) < 24 by norm_num,
    show (2:ℚ) < 27 by norm_num,
    show (2:ℚ) < 30 by norm_num,
    show (2:ℚ) < 33 by norm_num]

lemma stepA4 : (sA3.analyze_pose (some (kpRow 0)) 12).2 = sA4 := by
  simp [FixedPullUpCounter.analyze_pose, FixedPullUpCounter.detect_direction_change,
    FixedPullUpCounter.check_for_rep, FixedPullUpCounter.set_position, FixedPullUpCounter.init,
    classify_movement, step_up_counter, step_down_counter, confirm_direction,
    kpRow, dequeAppend, lastTwo, List.getLastD, List.headD, config.min_confidence,
    config.rep_cooldown, config.min_consecutive_frames, config.movement_threshold,
    config.min_movement_range, sA3, sA4,
    show ((0:ℚ) ⊔ (4 - 2⁻¹)) = 7/2 by rw [sup_eq_max]; norm_num [max_def],
    show ¬((4:ℚ) - 2⁻¹ < 3) by norm_num,
    show ¬((4:ℚ) ≤ 2⁻¹) by norm_num,
    show (3:ℚ) ≤ 4 - 2⁻¹ by norm_num,
    show (8:ℚ) < 20 by norm_num,
    show ¬((8:ℚ) < 0) by norm_num,
    show ¬((8:ℚ) < -20) by norm_num,
    show ¬((0:ℚ) < -8) by norm_num,
    show ¬((20:ℚ) < -8) by norm_num,
    show (-20:ℚ) < -8 by norm_num,
    show ¬((3:ℚ) ≤ 0) by norm_num,
    show ¬((3:ℚ) ≤ 1) by norm_num,
    show ¬((3:ℚ) ≤ 2) by norm_num,
    show (3:ℚ) ≤ 3 by norm_num,
    show (3:ℚ) ≤ 4 by norm_num,
    show (3:ℚ) ≤ 7/2 by norm_num,
    show max (0:ℚ) (4 - 1/2) = 7/2 by norm_num [max_def],
    show ¬((1:ℚ) < 3/10) by norm_num,
    show (0:ℚ) < 4 by norm_num,
    show ¬((7/2:ℚ) = 0) by norm_num,
    show ¬((0:ℚ) < 0) by norm_num,
    show ¬((1:ℚ) = 0) by norm_num,
    show ¬((2:ℚ) = 0) by norm_num,
    show ¬((4:ℚ) = 0) by norm_num,
    show ¬((20:ℚ) = 0) by norm_num,
    show (0:ℚ) + 1 = 1 by norm_num,
    show (1:ℚ) + 1 = 2 by norm_num,
    show (2:ℚ) + 1 = 3 by norm_num,
    show (3:ℚ) + 1 = 4 by norm_num,
    show ((20:ℚ) + 20) / 2 = 20 by norm_num,
    show (2:ℚ) < 3 by norm_num,
    show (2:ℚ) < 6 by norm_num,
    show (2:ℚ) < 9 by norm_num,
    show (2:ℚ) < 12 by norm_num,
    show (2:ℚ) < 15 by norm_num,
    show (2:ℚ) < 18 by norm_num,
    show (2:ℚ) < 21 by norm_num,
    show (2:ℚ) < 24 by norm_num,
    show (2:ℚ) < 27 by norm_num,
    show (2:ℚ) < 30 by norm_num,
    show (2:ℚ) < 33 by norm_num]

lemma stepA5 : (sA4.analyze_pose (some (kpRow 0)) 15).2 = sA5 := by
  simp [FixedPullUpCounter.analyze_pose, FixedPullUpCounter.detect_direction_change,
    FixedPullUpCounter.check_for_rep, FixedPullUpCounter.set_position, FixedPullUpCounter.init,
    classify_movement, step_up_counter, step_down_counter, confirm_direction,
    kpRow, dequeAppend, lastTwo, List.getLastD, List.headD, config.min_confidence,
    config.rep_cooldown, config.min_consecutive_frames, config.movement_threshold,
    config.min_movement_range, sA4, sA5,
    show ((0:ℚ) ⊔ (4 - 2⁻¹)) = 7/2 by rw [sup_eq_max]; norm_num [max_def],
    show ¬((4:ℚ) - 2⁻¹ < 3) by norm_num,
    show ¬((4:ℚ) ≤ 2⁻¹) by norm_num,
    show (3:ℚ) ≤ 4 - 2⁻¹ by norm_num,
    show (8:ℚ) < 20 by norm_num,
    show ¬((8:ℚ) < 0) by norm_num,
    show ¬((8:ℚ) < -20) by norm_num,
    show ¬((0:ℚ) < -8) by norm_num,
    show ¬((20:ℚ) < -8) by norm_num,
    show (-20:ℚ) < -8 by norm_num,
    show ¬((3:ℚ) ≤ 0) by norm_num,
    show ¬((3:ℚ) ≤ 1) by norm_num,
    show ¬((3:ℚ) ≤ 2) by norm_num,
    show (3:ℚ) ≤ 3 by norm_num,
    show (3:ℚ) ≤ 4 by norm_num,
    show (3:ℚ) ≤ 7/2 by norm_num,
    show max (0:ℚ) (4 - 1/2) = 7/2 by norm_num [max_def],
    show ¬((1:ℚ) < 3/10) by norm_num,
    show (0:ℚ) < 4 by norm_num,
    show ¬((7/2:ℚ) = 0) by norm_num,
    show ¬((0:ℚ) < 0) by norm_num,
    show ¬((1:ℚ) = 0) by norm_num,
    show ¬((2:ℚ) = 0) by norm_num,
    show ¬((4:ℚ) = 0) by norm_num,
    show ¬((20:ℚ) = 0) by norm_num,
    show (0:ℚ) + 1 = 1 by norm_num,
    show (1:ℚ) + 1 = 2 by norm_num,
    show (2:ℚ) + 1 = 3 by norm_num,
    show (3:ℚ) + 1 = 4 by norm_num,
    show ((20:ℚ) + 20) / 2 = 20 by norm_num,
    show (2:ℚ) < 3 by norm_num,
    show (2:ℚ) < 6 by norm_num,
    show (2:ℚ) < 9 by norm_num,
    show (2:ℚ) < 12 by norm_num,
    show (2:ℚ) < 15 by norm_num,
    show (2:ℚ) < 18 by norm_num,
    show (2:ℚ) < 21 by norm_num,
    show (2:ℚ) < 24 by norm_num,
    show (2:ℚ) < 27 by norm_num,
    show (2:ℚ) < 30 by norm_num,
    show (2:ℚ) < 33 by norm_num]

lemma stepA6 : (sA5.analyze_pose (some (kpRow 20)) 18).2 = sA6 := by
  simp [FixedPullUpCounter.analyze_pose, FixedPullUpCounter.detect_direction_change,
    FixedPullUpCounter.check_for_rep, FixedPullUpCounter.set_position, FixedPullUpCounter.init,
    classify_movement, step_up_counter, step_down_counter, confirm_direction,
    kpRow, dequeAppend, lastTwo, List.getLastD, List.headD, config.min_confidence,
    config.rep_cooldown, config.min_consecutive_frames, config.movement_threshold,
    config.min_movement_range, sA5, sA6,
    show ((0:ℚ) ⊔ (4 - 2⁻¹)) = 7/2 by rw [sup_eq_max]; norm_num [max_def],
    show ¬((4:ℚ) - 2⁻¹ < 3) by norm_num,
    show ¬((4:ℚ) ≤ 2⁻¹) by norm_num,
    show (3:ℚ) ≤ 4 - 2⁻¹ by norm_num,
    show (8:ℚ) < 20 by norm_num,
    show ¬((8:ℚ) < 0) by norm_num,
    show ¬((8:ℚ) < -20) by norm_num,
    show ¬((0:ℚ) < -8) by norm_num,
    show ¬((20:ℚ) < -8) by norm_num,
    show (-20:ℚ) < -8 by norm_num,
    show ¬((3:ℚ) ≤ 0) by norm_num,
    show ¬((3:ℚ) ≤ 1) by norm_num,
    show ¬((3:ℚ) ≤ 2) by norm_num,
    show (3:ℚ) ≤ 3 by norm_num,
    show (3:ℚ) ≤ 4 by norm_num,
    show (3:ℚ) ≤ 7/2 by norm_num,
    show max (0:ℚ) (4 - 1/2) = 7/2 by norm_num [max_def],
    show ¬((1:ℚ) < 3/10) by norm_num,
    show (0:ℚ) < 4 by norm_num,
    show ¬((7/2:ℚ) = 0) by norm_num,
    show ¬((0:ℚ) < 0) by norm_num,
    show ¬((1:ℚ) = 0) by norm_num,
    show ¬((2:ℚ) = 0) by norm_num,
    show ¬((4:ℚ) = 0) by norm_num,
    show ¬((20:ℚ) = 0) by norm_num,
    show (0:ℚ) + 1 = 1 by norm_num,
    show (1:ℚ) + 1 = 2 by norm_num,
    show (2:ℚ) + 1 = 3 by norm_num,
    show (3:ℚ) + 1 = 4 by norm_num,
    show ((20:ℚ) + 20) / 2 = 20 by norm_num,
    show (2:ℚ) < 3 by norm_num,
    show (2:ℚ) < 6 by norm_num,
    show (2:ℚ) < 9 by norm_num,
    show (2:ℚ) < 12 by norm_num,
    show (2:ℚ) < 15 by norm_num,
    show (2:ℚ) < 18 by norm_num,
    show (2:ℚ) < 21 by norm_num,
    show (2:ℚ) < 24 by norm_num,
    show (2:ℚ) < 27 by norm_num,
    show (2:ℚ) < 30 by norm_num,
    show (2:ℚ) < 33 by norm_num]

lemma stepA7 : (sA6.analyze_pose (some (kpRow 20)) 21).2 = sA7 := by
  simp [FixedPullUpCounter.analyze_pose, FixedPullUpCounter.detect_direction_change,
    FixedPullUpCounter.check_for_rep, FixedPullUpCounter.set_position, FixedPullUpCounter.init,
    classify_movement, step_up_counter, step_down_counter, confirm_direction,
    kpRow, dequeAppend, lastTwo, List.getLastD, List.headD, config.min_confidence,
    config.rep_cooldown, config.min_consecutive_frames, config.movement_threshold,
    config.min_movement_range, sA6, sA7,
    show ((0:ℚ) ⊔ (4 - 2⁻¹)) = 7/2 by rw [sup_eq_max]; norm_num [max_def],
    show ¬((4:ℚ) - 2⁻¹ < 3) by norm_num,
    show ¬((4:ℚ) ≤ 2⁻¹) by norm_num,
    show (3:ℚ) ≤ 4 - 2⁻¹ by norm_num,
    show (8:ℚ) < 20 by norm_num,
    show ¬((8:ℚ) < 0) by norm_num,
    show ¬((8:ℚ) < -20) by norm_num,
    show ¬((0:ℚ) < -8) by norm_num,
    show ¬((20:ℚ) < -8) by norm_num,
    show (-20:ℚ) < -8 by norm_num,
    show ¬((3:ℚ) ≤ 0) by norm_num,
    show ¬((3:ℚ) ≤ 1) by norm_num,
    show ¬((3:ℚ) ≤ 2) by norm_num,
    show (3:ℚ) ≤ 3 by norm_num,
    show (3:ℚ) ≤ 4 by norm_num,
    show (3:ℚ) ≤ 7/2 by norm_num,
    show max (0:ℚ) (4 - 1/2) = 7/2 by norm_num [max_def],
    show ¬((1:ℚ) < 3/10) by norm_num,
    show (0:ℚ) < 4 by norm_num,
    show ¬((7/2:ℚ) = 0) by norm_num,
    show ¬((0:ℚ) < 0) by norm_num,
    show ¬((1:ℚ) = 0) by norm_num,
    show ¬((2:ℚ) = 0) by norm_num,
    show ¬((4:ℚ) = 0) by norm_num,
    show ¬((20:ℚ) = 0) by norm_num,
    show (0:ℚ) + 1 = 1 by norm_num,
    show (1:ℚ) + 1 = 2 by norm_num,
    show (2:ℚ) + 1 = 3 by norm_num,
    show (3:ℚ) + 1 = 4 by norm_num,
    show ((20:ℚ) + 20) / 2 = 20 by norm_num,
    show (2:ℚ) < 3 by norm_num,
    show (2:ℚ) < 6 by norm_num,
    show (2:ℚ) < 9 by norm_num,
    show (2:ℚ) < 12 by norm_num,
    show (2:ℚ) < 15 by norm_num,
    show (2:ℚ) < 18 by norm_num,
    show (2:ℚ) < 21 by norm_num,
    show (2:ℚ) < 24 by norm_num,
    show (2:ℚ) < 27 by norm_num,
    show (2:ℚ) < 30 by norm_num,
    show (2:ℚ) < 33 by norm_num]

lemma stepA8 : (sA7.analyze_pose (some (kpRow 20)) 24).2 = sA8 := by
  simp [FixedPullUpCounter.analyze_pose, FixedPullUpCounter.detect_direction_change,
    FixedPullUpCounter.check_for_rep, FixedPullUpCounter.set_position, FixedPullUpCounter.init,
    classify_movement, step_up_counter, step_down_counter, confirm_direction,
    kpRow, dequeAppend, lastTwo, List.getLastD, List.headD, config.min_confidence,
    config.rep_cooldown, config.min_consecutive_frames, config.movement_threshold,
    config.min_movement_range, sA7, sA8,
    show ((0:ℚ) ⊔ (4 - 2⁻¹)) = 7/2 by rw [sup_eq_max]; norm_num [max_def],
    show ¬((4:ℚ) - 2⁻¹ < 3) by norm_num,
    show ¬((4:ℚ) ≤ 2⁻¹) by norm_num,
    show (3:ℚ) ≤ 4 - 2⁻¹ by norm_num,
    show (8:ℚ) < 20 by norm_num,
    show ¬((8:ℚ) < 0) by norm_num,
    show ¬((8:ℚ) < -20) by norm_num,
    show ¬((0:ℚ) < -8) by norm_num,
    show ¬((20:ℚ) < -8) by norm_num,
    show (-20:ℚ) < -8 by norm_num,
    show ¬((3:ℚ) ≤ 0) by norm_num,
    show ¬((3:ℚ) ≤ 1) by norm_num,
    show ¬((3:ℚ) ≤ 2) by norm_num,
    show (3:ℚ) ≤ 3 by norm_num,
    show (3:ℚ) ≤ 4 by norm_num,
    show (3:ℚ) ≤ 7/2 by norm_num,
    show max (0:ℚ) (4 - 1/2) = 7/2 by norm_num [max_def],
    show ¬((1:ℚ) < 3/10) by norm_num,
    show (0:ℚ) < 4 by norm_num,
    show ¬((7/2:ℚ) = 0) by norm_num,
    show ¬((0:ℚ) < 0) by norm_num,
    show ¬((1:ℚ) = 0) by norm_num,
    show ¬((2:ℚ) = 0) by norm_num,
    show ¬((4:ℚ) = 0) by norm_num,
    show ¬((20:ℚ) = 0) by norm_num,
    show (0:ℚ) + 1 = 1 by norm_num,
    show (1:ℚ) + 1 = 2 by norm_num,
    show (2:ℚ) + 1 = 3 by norm_num,
    show (3:ℚ) + 1 = 4 by norm_num,
    show ((20:ℚ) + 20) / 2 = 20 by norm_num,
    show (2:ℚ) < 3 by norm_num,
    show (2:ℚ) < 6 by norm_num,
    show (2:ℚ) < 9 by norm_num,
    show (2:ℚ) < 12 by norm_num,
    show (2:ℚ) < 15 by norm_num,
    show (2:ℚ) < 18 by norm_num,
    show (2:ℚ) < 21 by norm_num,
    show (2:ℚ) < 24 by norm_num,
    show (2:ℚ) < 27 by norm_num,
    show (2:ℚ) < 30 by norm_num,
    show (2:ℚ) < 33 by norm_num]

lemma stepA9 : (sA8.analyze_pose (some (kpRow 20)) 27).2 = sA9 := by
  simp [FixedPullUpCounter.analyze_pose, FixedPullUpCounter.detect_direction_change,
    FixedPullUpCounter.check_for_rep, FixedPullUpCounter.set_position, FixedPullUpCounter.init,
    classify_movement, step_up_counter, step_down_counter, confirm_direction,
    kpRow, dequeAppend, lastTwo, List.getLastD, List.headD, config.min_confidence,
    config.rep_cooldown, config.min_consecutive_frames, config.movement_threshold,
    config.min_movement_range, sA8, sA9,
    show ((0:ℚ) ⊔ (4 - 2⁻¹)) = 7/2 by rw [sup_eq_max]; norm_num [max_def],
    show ¬((4:ℚ) - 2⁻¹ < 3) by norm_num,
    show ¬((4:ℚ) ≤ 2⁻¹) by norm_num,
    show (3:ℚ) ≤ 4 - 2⁻¹ by norm_num,
    show (8:ℚ) < 20 by norm_num,
    show ¬((8:ℚ) < 0) by norm_num,
    show ¬((8:ℚ) < -20) by norm_num,
    show ¬((0:ℚ) < -8) by norm_num,
    show ¬((20:ℚ) < -8) by norm_num,
    show (-20:ℚ) < -8 by norm_num,
    show ¬((3:ℚ) ≤ 0) by norm_num,
    show ¬((3:ℚ) ≤ 1) by norm_num,
    show ¬((3:ℚ) ≤ 2) by norm_num,
    show (3:ℚ) ≤ 3 by norm_num,
    show (3:ℚ) ≤ 4 by norm_num,
    show (3:ℚ) ≤ 7/2 by norm_num,
    show max (0:ℚ) (4 - 1/2) = 7/2 by norm_num [max_def],
    show ¬((1:ℚ) < 3/10) by norm_num,
    show (0:ℚ) < 4 by norm_num,
    show ¬((7/2:ℚ) = 0) by norm_num,
    show ¬((0:ℚ) < 0) by norm_num,
    show ¬((1:ℚ) = 0) by norm_num,
    show ¬((2:ℚ) = 0) by norm_num,
    show ¬((4:ℚ) = 0) by norm_num,
    show ¬((20:ℚ) = 0) by norm_num,
    show (0:ℚ) + 1 = 1 by norm_num,
    show (1:ℚ) + 1 = 2 by norm_num,
    show (2:ℚ) + 1 = 3 by norm_num,
    show (3:ℚ) + 1 = 4 by norm_num,
    show ((20:ℚ) + 20) / 2 = 20 by norm_num,
    show (2:ℚ) < 3 by norm_num,
    show (2:ℚ) < 6 by norm_num,
    show (2:ℚ) < 9 by norm_num,
    show (2:ℚ) < 12 by norm_num,
    show (2:ℚ) < 15 by norm_num,
    show (2:ℚ) < 18 by norm_num,
    show (2:ℚ) < 21 by norm_num,
    show (2:ℚ) < 24 by norm_num,
    show (2:ℚ) < 27 by norm_num,
    show (2:ℚ) < 30 by norm_num,
    show (2:ℚ) < 33 by norm_num]

lemma stepA10 : (sA9.analyze_pose (some (kpRow 20)) 30).2 = sA10 := by
  simp [FixedPullUpCounter.analyze_pose, FixedPullUpCounter.detect_direction_change,
    FixedPullUpCounter.check_for_rep, FixedPullUpCounter.set_position, FixedPullUpCounter.init,
    classify_movement, step_up_counter, step_down_counter, confirm_direction,
    kpRow, dequeAppend, lastTwo, List.getLastD, List.headD, config.min_confidence,
    config.rep_cooldown, config.min_consecutive_frames, config.movement_threshold,
    config.min_movement_range, sA9, sA10,
    show ((0:ℚ) ⊔ (4 - 2⁻¹)) = 7/2 by rw [sup_eq_max]; norm_num [max_def],
    show ¬((4:ℚ) - 2⁻¹ < 3) by norm_num,
    show ¬((4:ℚ) ≤ 2⁻¹) by norm_num,
    show (3:ℚ) ≤ 4 - 2⁻¹ by norm_num,
    show (8:ℚ) < 20 by norm_num,
    show ¬((8:ℚ) < 0) by norm_num,
    show ¬((8:ℚ) < -20) by norm_num,
    show ¬((0:ℚ) < -8) by norm_num,
    show ¬((20:ℚ) < -8) by norm_num,
    show (-20:ℚ) < -8 by norm_num,
    show ¬((3:ℚ) ≤ 0) by norm_num,
    show ¬((3:ℚ) ≤ 1) by norm_num,
    show ¬((3:ℚ) ≤ 2) by norm_num,
    show (3:ℚ) ≤ 3 by norm_num,
    show (3:ℚ) ≤ 4 by norm_num,
    show (3:ℚ) ≤ 7/2 by norm_num,
    show max (0:ℚ) (4 - 1/2) = 7/2 by norm_num [max_def],
    show ¬((1:ℚ) < 3/10) by norm_num,
    show (0:ℚ) < 4 by norm_num,
    show ¬((7/2:ℚ) = 0) by norm_num,
    show ¬((0:ℚ) < 0) by norm_num,
    show ¬((1:ℚ) = 0) by norm_num,
    show ¬((2:ℚ) = 0) by norm_num,
    show ¬((4:ℚ) = 0) by norm_num,
    show ¬((20:ℚ) = 0) by norm_num,
    show (0:ℚ) + 1 = 1 by norm_num,
    show (1:ℚ) + 1 = 2 by norm_num,
    show (2:ℚ) + 1 = 3 by norm_num,
    show (3:ℚ) + 1 = 4 by norm_num,
    show ((20:ℚ) + 20) / 2 = 20 by norm_num,
    show (2:ℚ) < 3 by norm_num,
    show (2:ℚ) < 6 by norm_num,
    show (2:ℚ) < 9 by norm_num,
    show (2:ℚ) < 12 by norm_num,
    show (2:ℚ) < 15 by norm_num,
    show (2:ℚ) < 18 by norm_num,
    show (2:ℚ) < 21 by norm_num,
    show (2:ℚ) < 24 by norm_num,
    show (2:ℚ) < 27 by norm_num,
    show (2:ℚ) < 30 by norm_num,
    show (2:ℚ) < 33 by norm_num]

lemma stepA11 : (sA10.analyze_pose (some (kpRow 0)) 33).2 = sA11 := by
  simp [FixedPullUpCounter.analyze_pose, FixedPullUpCounter.detect_direction_change,
    FixedPullUpCounter.check_for_rep, FixedPullUpCounter.set_position, FixedPullUpCounter.init,
    classify_movement, step_up_counter, step_down_counter, confirm_direction,
    kpRow, dequeAppend, lastTwo, List.getLastD, List.headD, config.min_confidence,
    config.rep_cooldown, config.min_consecutive_frames, config.movement_threshold,
    config.min_movement_range, sA10, sA11,
    show ((0:ℚ) ⊔ (4 - 2⁻¹)) = 7/2 by rw [sup_eq_max]; norm_num [max_def],
    show ¬((4:ℚ) - 2⁻¹ < 3) by norm_num,
    show ¬((4:ℚ) ≤ 2⁻¹) by norm_num,
    show (3:ℚ) ≤ 4 - 2⁻¹ by norm_num,
    show (8:ℚ) < 20 by norm_num,
    show ¬((8:ℚ) < 0) by norm_num,
    show ¬((8:ℚ) < -20) by norm_num,
    show ¬((0:ℚ) < -8) by norm_num,
    show ¬((20:ℚ) < -8) by norm_num,
    show (-20:ℚ) < -8 by norm_num,
    show ¬((3:ℚ) ≤ 0) by norm_num,
    show ¬((3:ℚ) ≤ 1) by norm_num,
    show ¬((3:ℚ) ≤ 2) by norm_num,
    show (3:ℚ) ≤ 3 by norm_num,
    show (3:ℚ) ≤ 4 by norm_num,
    show (3:ℚ) ≤ 7/2 by norm_num,
    show max (0:ℚ) (4 - 1/2) = 7/2 by norm_num [max_def],
    show ¬((1:ℚ) < 3/10) by norm_num,
    show (0:ℚ) < 4 by norm_num,
    show ¬((7/2:ℚ) = 0) by norm_num,
    show ¬((0:ℚ) < 0) by norm_num,
    show ¬((1:ℚ) = 0) by norm_num,
    show ¬((2:ℚ) = 0) by norm_num,
    show ¬((4:ℚ) = 0) by norm_num,
    show ¬((20:ℚ) = 0) by norm_num,
    show (0:ℚ) + 1 = 1 by norm_num,
    show (1:ℚ) + 1 = 2 by norm_num,
    show (2:ℚ) + 1 = 3 by norm_num,
    show (3:ℚ) + 1 = 4 by norm_num,
    show ((20:ℚ) + 20) / 2 = 20 by norm_num,
    show (2:ℚ) < 3 by norm_num,
    show (2:ℚ) < 6 by norm_num,
    show (2:ℚ) < 9 by norm_num,
    show (2:ℚ) < 12 by norm_num,
    show (2:ℚ) < 15 by norm_num,
    show (2:ℚ) < 18 by norm_num,
    show (2:ℚ) < 21 by norm_num,
    show (2:ℚ) < 24 by norm_num,
    show (2:ℚ) < 27 by norm_num,
    show (2:ℚ) < 30 by norm_num,
    show (2:ℚ) < 33 by norm_num]

/-- Evaluation of the whole Scenario A run. -/
lemma runA : FixedPullUpCounter.init.runFrames scenarioA = sA11 := by
  have h : scenarioA = [(some (kpRow 0), 3), (some (kpRow 0), 6), (some (kpRow 0), 9),
      (some (kpRow 0), 12), (some (kpRow 0), 15), (some (kpRow 20), 18), (some (kpRow 20), 21),
      (some (kpRow 20), 24), (some (kpRow 20), 27), (some (kpRow 20), 30), (some (kpRow 0), 33)] := by
    norm_num [scenarioA, scenarioDiffs, List.range_succ]
  rw [h]
  simp only [FixedPullUpCounter.runFrames, List.foldl]
  rw [stepA1, stepA2, stepA3, stepA4, stepA5, stepA6, stepA7, stepA8, stepA9, stepA10, stepA11]

lemma detect_count_eq (s : FixedPullUpCounter) (d now : ℚ) :
    ((s.detect_direction_change d now).2.2).count = s.count := by
  simp only [FixedPullUpCounter.detect_direction_change]
  split
  · rfl
  · split <;> rfl

lemma detect_lrt_eq (s : FixedPullUpCounter) (d now : ℚ) :
    ((s.detect_direction_change d now).2.2).last_rep_time = s.last_rep_time := by
  simp only [FixedPullUpCounter.detect_direction_change]
  split
  · rfl
  · split <;> rfl

lemma check_for_rep_cases (s : FixedPullUpCounter) (now : ℚ) :
    s.check_for_rep now = s ∨
    (now - s.last_rep_time > config.rep_cooldown ∧
      ∃ e0 e1, lastTwo s.direction_history = some (e0, e1) ∧
        e0.dir = Direction.down ∧ e1.dir = Direction.up ∧
        |e1.diff - e0.diff| > config.min_movement_range ∧
        s.check_for_rep now =
          { s with count := s.count + 1
                   last_rep_time := now
                   direction_history := [] }) := by
  simp only [FixedPullUpCounter.check_for_rep]
  split
  · rename_i hcool
    split
    · rename_i e0 e1 hpair
      split
      · rename_i hdu
        split
        · rename_i hrange
          exact Or.inr ⟨hcool, e0, e1, hpair, hdu.1, hdu.2, hrange, by
            simp [FixedPullUpCounter.check_for_rep, hcool, hpair, hdu, hrange]⟩
        · exact Or.inl rfl
      · exact Or.inl rfl
    · exact Or.inl rfl
  · exact Or.inl rfl

lemma analyze_pose_shape (s : FixedPullUpCounter) (kps : Option (List Keypoint)) (now : ℚ) :
    (s.analyze_pose kps now).2 = s ∨
    ∃ d p, (s.analyze_pose kps now).2 =
      (((s.detect_direction_change d now).2.2).check_for_rep now).set_position p := by
  rcases kps with _ | l
  · exact Or.inl rfl
  · simp only [FixedPullUpCounter.analyze_pose]
    split
    · exact Or.inl rfl
    · split
      · split
        · exact Or.inl rfl
        · exact Or.inr ⟨_, _, rfl⟩
      · exact Or.inl rfl

lemma classify_movement_up {m : ℚ} (h : classify_movement m = Direction.up) :
    config.movement_threshold < m := by
  unfold classify_movement at h
  split_ifs at h with h1 h2
  exact h1

lemma classify_movement_down {m : ℚ} (h : classify_movement m = Direction.down) :
    m < -config.movement_threshold := by
  unfold classify_movement at h
  split_ifs at h with h1 h2
  exact h2

lemma step_up_counter_nonneg (nd : Direction) {cu : ℚ} (h : 0 ≤ cu) :
    0 ≤ step_up_counter nd cu := by
  unfold step_up_counter
  split_ifs
  · linarith
  · linarith
  · exact le_max_left 0 _
  · exact h

lemma step_down_counter_nonneg (nd : Direction) {cd : ℚ} (h : 0 ≤ cd) :
    0 ≤ step_down_counter nd cd := by
  unfold step_down_counter
  split_ifs
  · linarith
  · linarith
  · exact le_max_left 0 _
  · exact h

lemma step_up_counter_le_succ (nd : Direction) {cu : ℚ} (h : 0 ≤ cu) :
    step_up_counter nd cu ≤ cu + 1 := by
  unfold step_up_counter
  split_ifs
  · linarith
  · linarith
  · exact max_le (by linarith) (by linarith)
  · linarith

lemma step_down_counter_le_succ (nd : Direction) {cd : ℚ} (h : 0 ≤ cd) :
    step_down_counter nd cd ≤ cd + 1 := by
  unfold step_down_counter
  split_ifs
  · linarith
  · linarith
  · exact max_le (by linarith) (by linarith)
  · linarith

lemma step_up_counter_lt {nd : Direction} {cu : ℚ} (h : 0 ≤ cu)
    (hlt : cu < step_up_counter nd cu) : nd = Direction.up := by
  unfold step_up_counter at hlt
  split_ifs at hlt with h1 h2 h3
  · exact h1
  · linarith
  · have : max 0 (cu - 1 / 2) ≤ cu := max_le h (by linarith)
    linarith
  · linarith

lemma step_down_counter_lt {nd : Direction} {cd : ℚ} (h : 0 ≤ cd)
    (hlt : cd < step_down_counter nd cd) : nd = Direction.down := by
  unfold step_down_counter at hlt
  split_ifs at hlt with h1 h2 h3
  · linarith
  · exact h2
  · have : max 0 (cd - 1 / 2) ≤ cd := max_le h (by linarith)
    linarith
  · linarith

lemma step_counters_exclusive (nd : Direction) {cu cd : ℚ} (h : cu = 0 ∨ cd = 0) :
    step_up_counter nd cu = 0 ∨ step_down_counter nd cd = 0 := by
  cases nd with
  | up => exact Or.inr (by simp [step_down_counter])
  | down => exact Or.inl (by simp [step_up_counter])
  | stable =>
    rcases h with h | h
    · exact Or.inl (by simp [step_up_counter, h])
    · exact Or.inr (by simp [step_down_counter, h])
  | starting =>
    rcases h with h | h
    · exact Or.inl (by simp [step_up_counter, h])
    · exact Or.inr (by simp [step_down_counter, h])

lemma confirm_direction_cases (cu cd : ℚ) (cur : Direction) :
    confirm_direction cu cd cur = cur ∨
    (confirm_direction cu cd cur = Direction.up ∧ config.min_consecutive_frames ≤ cu) ∨
    (confirm_direction cu cd cur = Direction.down ∧ config.min_consecutive_frames ≤ cd) ∨
    (confirm_direction cu cd cur = Direction.stable ∧ cu = 0 ∧ cd = 0) := by
  unfold confirm_direction
  split_ifs with h1 h2 h3
  · exact Or.inr (Or.inl ⟨rfl, h1⟩)
  · exact Or.inr (Or.inr (Or.inl ⟨rfl, h2⟩))
  · exact Or.inr (Or.inr (Or.inr ⟨rfl, h3⟩))
  · exact Or.inl rfl

lemma set_position_count (s : FixedPullUpCounter) (p : Status) :
    (s.set_position p).count = s.count := rfl

lemma set_position_cu (s : FixedPullUpCounter) (p : Status) :
    (s.set_position p).consecutive_up_frames = s.consecutive_up_frames := rfl

lemma set_position_cd (s : FixedPullUpCounter) (p : Status) :
    (s.set_position p).consecutive_down_frames = s.consecutive_down_frames := rfl

lemma set_position_dh (s : FixedPullUpCounter) (p : Status) :
    (s.set_position p).direction_history = s.direction_history := rfl

lemma set_position_cur (s : FixedPullUpCounter) (p : Status) :
    (s.set_position p).current_direction = s.current_direction := rfl

lemma set_position_lrt (s : FixedPullUpCounter) (p : Status) :
    (s.set_position p).last_rep_time = s.last_rep_time := rfl

lemma check_for_rep_cu (s : FixedPullUpCounter) (now : ℚ) :
    (s.check_for_rep now).consecutive_up_frames = s.consecutive_up_frames := by
  rcases check_for_rep_cases s now with h | ⟨_, _, _, _, _, _, _, h⟩ <;> rw [h]

lemma check_for_rep_cd (s : FixedPullUpCounter) (now : ℚ) :
    (s.check_for_rep now).consecutive_down_frames = s.consecutive_down_frames := by
  rcases check_for_rep_cases s now with h | ⟨_, _, _, _, _, _, _, h⟩ <;> rw [h]

lemma check_for_rep_cur (s : FixedPullUpCounter) (now : ℚ) :
    (s.check_for_rep now).current_direction = s.current_direction := by
  rcases check_for_rep_cases s now with h | ⟨_, _, _, _, _, _, _, h⟩ <;> rw [h]

lemma check_for_rep_count_ge (s : FixedPullUpCounter) (now : ℚ) :
    s.count ≤ (s.check_for_rep now).count := by
  rcases check_for_rep_cases s now with h | ⟨_, _, _, _, _, _, _, h⟩ <;> rw [h]
  · exact Nat.le_succ _

lemma detect_cases_full (s : FixedPullUpCounter) (d now : ℚ) :
    (s.detect_direction_change d now =
        (Direction.starting, 0,
          { s with position_history := dequeAppend 30 s.position_history d })) ∨
    (∃ m : ℚ,
      (s.detect_direction_change d now).2.1 = |m| ∧
      (s.detect_direction_change d now).2.2.consecutive_up_frames
          = step_up_counter (classify_movement m) s.consecutive_up_frames ∧
      (s.detect_direction_change d now).2.2.consecutive_down_frames
          = step_down_counter (classify_movement m) s.consecutive_down_frames ∧
      (s.detect_direction_change d now).2.2.current_direction
          = confirm_direction (s.detect_direction_change d now).2.2.consecutive_up_frames
              ((s.detect_direction_change d now).2.2.consecutive_down_frames)
              s.current_direction ∧
      (s.detect_direction_change d now).2.2.position_history
          = dequeAppend 30 s.position_history d ∧
      ((s.detect_direction_change d now).2.2.direction_history = s.direction_history ∧
         (s.detect_direction_change d now).2.2.current_direction = s.current_direction ∨
       ((s.detect_direction_change d now).2.2.current_direction ≠ s.current_direction ∧
         (s.detect_direction_change d now).2.2.direction_history
           = dequeAppend 10 s.direction_history
               ⟨(s.detect_direction_change d now).2.2.current_direction, now, d⟩))) := by
  simp only [FixedPullUpCounter.detect_direction_change]
  split
  · exact Or.inl rfl
  · split
    · rename_i hne
      exact Or.inr ⟨_, rfl, rfl, rfl, rfl, rfl, Or.inr ⟨hne, rfl⟩⟩
    · rename_i hne
      push_neg at hne
      refine Or.inr ⟨_, rfl, rfl, rfl, ?_, rfl, Or.inl ⟨rfl, rfl⟩⟩
      exact hne.symm

lemma detect_counters_le (s : FixedPullUpCounter) (d now : ℚ)
    (hcu : 0 ≤ s.consecutive_up_frames) (hcd : 0 ≤ s.consecutive_down_frames) :
    ((s.detect_direction_change d now).2.2).consecutive_up_frames
        ≤ s.consecutive_up_frames + 1 ∧
    ((s.detect_direction_change d now).2.2).consecutive_down_frames
        ≤ s.consecutive_down_frames + 1 := by
  rcases detect_cases_full s d now with heq | ⟨m, _, h1, h2, _, _, _⟩
  · rw [heq]
    exact ⟨by linarith, by linarith⟩
  · rw [h1, h2]
    exact ⟨step_up_counter_le_succ _ hcu, step_down_counter_le_succ _ hcd⟩

lemma detect_magnitude_of_incr (s : FixedPullUpCounter) (d now : ℚ)
    (hcu : 0 ≤ s.consecutive_up_frames) (hcd : 0 ≤ s.consecutive_down_frames)
    (h : s.consecutive_up_frames < ((s.detect_direction_change d now).2.2).consecutive_up_frames ∨
         s.consecutive_down_frames < ((s.detect_direction_change d now).2.2).consecutive_down_frames) :
    config.movement_threshold < (s.detect_direction_change d now).2.1 := by
  rcases detect_cases_full s d now with heq | ⟨m, hm, h1, h2, _, _, _⟩
  · rw [heq] at h
    dsimp at h
    rcases h with h | h <;> linarith
  · rw [h1, h2] at h
    rw [hm]
    rcases h with h | h
    · have hup := step_up_counter_lt hcu h
      have := classify_movement_up hup
      calc config.movement_threshold < m := this
        _ ≤ |m| := le_abs_self m
    · have hdn := step_down_counter_lt hcd h
      have := classify_movement_down hdn
      have h2 : config.movement_threshold < -m := by linarith
      calc config.movement_threshold < -m := h2
        _ ≤ |m| := neg_le_abs m

lemma detect_confirm_cases (s : FixedPullUpCounter) (d now : ℚ) :
    ((s.detect_direction_change d now).2.2).current_direction = s.current_direction ∨
    (((s.detect_direction_change d now).2.2).current_direction = Direction.up ∧
      config.min_consecutive_frames ≤ ((s.detect_direction_change d now).2.2).consecutive_up_frames) ∨
    (((s.detect_direction_change d now).2.2).current_direction = Direction.down ∧
      config.min_consecutive_frames ≤ ((s.detect_direction_change d now).2.2).consecutive_down_frames) ∨
    (((s.detect_direction_change d now).2.2).current_direction = Direction.stable ∧
      ((s.detect_direction_change d now).2.2).consecutive_up_frames = 0 ∧
      ((s.detect_direction_change d now).2.2).consecutive_down_frames = 0) := by
  rcases detect_cases_full s d now with heq | ⟨m, _, _, _, hconf, _, _⟩
  · rw [heq]
    exact Or.inl rfl
  · rcases confirm_direction_cases ((s.detect_direction_change d now).2.2).consecutive_up_frames
      ((s.detect_direction_change d now).2.2).consecutive_down_frames s.current_direction with
      hc | ⟨hc, hge⟩ | ⟨hc, hge⟩ | ⟨hc, hz1, hz2⟩
    · exact Or.inl (by rw [hconf, hc])
    · exact Or.inr (Or.inl ⟨by rw [hconf, hc], hge⟩)
    · exact Or.inr (Or.inr (Or.inl ⟨by rw [hconf, hc], hge⟩))
    · exact Or.inr (Or.inr (Or.inr ⟨by rw [hconf, hc], hz1, hz2⟩))

lemma detect_counters_nonneg (s : FixedPullUpCounter) (d now : ℚ)
    (hcu : 0 ≤ s.consecutive_up_frames) (hcd : 0 ≤ s.consecutive_down_frames) :
    0 ≤ ((s.detect_direction_change d now).2.2).consecutive_up_frames ∧
    0 ≤ ((s.detect_direction_change d now).2.2).consecutive_down_frames := by
  rcases detect_cases_full s d now with heq | ⟨m, _, h1, h2, _, _, _⟩
  · rw [heq]
    exact ⟨hcu, hcd⟩
  · rw [h1, h2]
    exact ⟨step_up_counter_nonneg _ hcu, step_down_counter_nonneg _ hcd⟩

lemma detect_counters_exclusive (s : FixedPullUpCounter) (d now : ℚ)
    (h : s.consecutive_up_frames = 0 ∨ s.consecutive_down_frames = 0) :
    ((s.detect_direction_change d now).2.2).consecutive_up_frames = 0 ∨
    ((s.detect_direction_change d now).2.2).consecutive_down_frames = 0 := by
  rcases detect_cases_full s d now with heq | ⟨m, _, h1, h2, _, _, _⟩
  · rw [heq]
    exact h
  · rw [h1, h2]
    exact step_counters_exclusive _ h

lemma dequeAppend_eq {α : Type} {n : ℕ} (hn : 1 ≤ n) (l : List α) (x : α) :
    dequeAppend n l x = l.drop (l.length + 1 - n) ++ [x] := by
  unfold dequeAppend
  rw [List.drop_append_of_le_length (by omega)]

lemma getLast?_dequeAppend {α : Type} {n : ℕ} (hn : 1 ≤ n) (l : List α) (x : α) :
    (dequeAppend n l x).getLast? = some x := by
  rw [dequeAppend_eq hn]
  exact List.getLast?_concat _

lemma adjacentDistinct_tail {a : DirEvent} {l : List DirEvent}
    (h : adjacentDistinct (a :: l) = true) : adjacentDistinct l = true := by
  cases l with
  | nil => rfl
  | cons b t =>
    simp only [adjacentDistinct, Bool.and_eq_true] at h
    exact h.2

lemma adjacentDistinct_drop {l : List DirEvent} (k : ℕ)
    (h : adjacentDistinct l = true) : adjacentDistinct (l.drop k) = true := by
  induction k generalizing l with
  | zero => exact h
  | succ k ih =>
    cases l with
    | nil => exact h
    | cons a t => exact ih (adjacentDistinct_tail h)

lemma adjacentDistinct_concat {l : List DirEvent} {x : DirEvent}
    (h : adjacentDistinct l = true)
    (hlast : ∀ e, l.getLast? = some e → e.dir ≠ x.dir) :
    adjacentDistinct (l ++ [x]) = true := by
  induction l with
  | nil => rfl
  | cons a t ih =>
    cases t with
    | nil =>
      have hne := hlast a rfl
      simp only [List.cons_append, List.nil_append, adjacentDistinct, Bool.and_eq_true,
        decide_eq_true_eq]
      exact ⟨hne, trivial⟩
    | cons b t2 =>
      simp only [adjacentDistinct, Bool.and_eq_true, decide_eq_true_eq] at h
      simp only [List.cons_append, adjacentDistinct, Bool.and_eq_true, decide_eq_true_eq]
      refine ⟨h.1, ?_⟩
      have := ih h.2 (fun e he => hlast e (by rw [List.getLast?_cons_cons]; exact he))
      simpa [List.cons_append] using this

lemma getLast?_drop_of_some {α : Type} {l : List α} {k : ℕ} {e : α}
    (h : (l.drop k).getLast? = some e) : l.getLast? = some e := by
  induction k generalizing l with
  | zero => exact h
  | succ k ih =>
    cases l with
    | nil => exact h
    | cons a t =>
      have h2 : t.getLast? = some e := ih h
      cases t with
      | nil => cases h2
      | cons b t2 =>
        rw [List.getLast?_cons_cons]
        exact h2

lemma lastTwo_length {l : List DirEvent} {a b : DirEvent}
    (h : lastTwo l = some (a, b)) : 2 ≤ l.length := by
  unfold lastTwo at h
  rcases hrev : l.reverse with _ | ⟨b', t'⟩
  · rw [hrev] at h
    cases h
  · rcases t' with _ | ⟨a', t2⟩
    · rw [hrev] at h
      cases h
    · have : l.length = l.reverse.length := (List.length_reverse l).symm
      rw [this, hrev]
      simp

lemma lastTwo_getLast? {l : List DirEvent} {a b : DirEvent}
    (h : lastTwo l = some (a, b)) : l.getLast? = some b := by
  unfold lastTwo at h
  rcases hrev : l.reverse with _ | ⟨b', t'⟩
  · rw [hrev] at h
    cases h
  · rcases t' with _ | ⟨a', t2⟩
    · rw [hrev] at h
      cases h
    · rw [hrev] at h
      injection h with h
      have hb : b' = b := by
        have := congrArg Prod.snd h
        simpa using this
      have hl : l = (b' :: a' :: t2).reverse := by rw [← hrev, List.reverse_reverse]
      rw [hl, hb]
      simp [List.getLast?_concat]

lemma lastTwo_dequeAppend {l : List DirEvent} {a b : DirEvent} (x : DirEvent)
    (h : lastTwo l = some (a, b)) :
    lastTwo (dequeAppend 10 l x) = some (b, x) := by
  have hlen := lastTwo_length h
  have hlast := lastTwo_getLast? h
  rw [dequeAppend_eq (by norm_num) l x]
  unfold lastTwo
  rw [List.reverse_append]
  have hdroplen : 1 ≤ (l.drop (l.length + 1 - 10)).length := by
    rw [List.length_drop]
    omega
  have hlast2 : (l.drop (l.length + 1 - 10)).getLast? = some b := by
    rcases hrd2 : (l.drop (l.length + 1 - 10)).getLast? with _ | e
    · rw [List.getLast?_eq_none_iff] at hrd2
      rw [hrd2] at hdroplen
      simp at hdroplen
    · have := getLast?_drop_of_some hrd2
      rw [hlast] at this
      injection this with this
      rw [this]
  have hhead : (l.drop (l.length + 1 - 10)).reverse.head? = some b := by
    rw [List.head?_reverse]
    exact hlast2
  rcases hrev2 : (l.drop (l.length + 1 - 10)).reverse with _ | ⟨b2, t2⟩
  · rw [hrev2] at hhead
    cases hhead
  · rw [hrev2] at hhead
    simp only [List.head?_cons] at hhead
    injection hhead with hhead
    simp only [List.reverse_cons, List.reverse_nil, List.nil_append, List.cons_append]
    show (some (b2, x) : Option (DirEvent × DirEvent)) = some (b, x)
    rw [hhead]

lemma check_for_rep_countersInv (s : FixedPullUpCounter) (now : ℚ)
    (h : CountersInv s) : CountersInv (s.check_for_rep now) := by
  unfold CountersInv at h ⊢
  rw [check_for_rep_cu, check_for_rep_cd]
  exact h

lemma detect_countersInv (s : FixedPullUpCounter) (d now : ℚ)
    (h : CountersInv s) : CountersInv ((s.detect_direction_change d now).2.2) :=
  ⟨(detect_counters_nonneg s d now h.1 h.2.1).1,
   (detect_counters_nonneg s d now h.1 h.2.1).2,
   detect_counters_exclusive s d now h.2.2⟩

lemma analyze_countersInv (s : FixedPullUpCounter) (kps : Option (List Keypoint))
    (now : ℚ) (h : CountersInv s) : CountersInv ((s.analyze_pose kps now).2) := by
  rcases analyze_pose_shape s kps now with heq | ⟨d, p, heq⟩ <;> rw [heq]
  · exact h
  · exact check_for_rep_countersInv _ _ (detect_countersInv s d now h)

lemma reachable_countersInv {s : FixedPullUpCounter} (h : Reachable s) :
    CountersInv s := by
  induction h with
  | init => exact ⟨le_refl 0, le_refl 0, Or.inl rfl⟩
  | step s kps now _ ih => exact analyze_countersInv s kps now ih
  | reset s _ _ => exact ⟨le_refl 0, le_refl 0, Or.inl rfl⟩

lemma detect_dirLogInv (s : FixedPullUpCounter) (d now : ℚ)
    (h : DirLogInv s) : DirLogInv ((s.detect_direction_change d now).2.2) := by
  obtain ⟨hadj, hlast⟩ := h
  rcases detect_cases_full s d now with heq | ⟨m, _, _, _, _, _, hdh⟩
  · rw [heq]
    exact ⟨hadj, hlast⟩
  · rcases hdh with ⟨hdh, hcur⟩ | ⟨hne, hdh⟩
    · constructor
      · rw [hdh]
        exact hadj
      · intro e he
        rw [hdh] at he
        rw [hcur]
        exact hlast e he
    · constructor
      · rw [hdh, dequeAppend_eq (by norm_num)]
        apply adjacentDistinct_concat (adjacentDistinct_drop _ hadj)
        intro e he
        have heq2 := hlast e (getLast?_drop_of_some he)
        rw [heq2]
        exact fun hc => hne hc.symm
      · intro e he
        rw [hdh, getLast?_dequeAppend (by norm_num)] at he
        injection he with he
        rw [← he]

lemma check_for_rep_dirLogInv (s : FixedPullUpCounter) (now : ℚ)
    (h : DirLogInv s) : DirLogInv (s.check_for_rep now) := by
  rcases check_for_rep_cases s now with heq | ⟨_, _, _, _, _, _, _, heq⟩ <;> rw [heq]
  · exact h
  · exact ⟨rfl, fun e he => by cases he⟩

lemma analyze_dirLogInv (s : FixedPullUpCounter) (kps : Option (List Keypoint))
    (now : ℚ) (h : DirLogInv s) : DirLogInv ((s.analyze_pose kps now).2) := by
  rcases analyze_pose_shape s kps now with heq | ⟨d, p, heq⟩ <;> rw [heq]
  · exact h
  · exact check_for_rep_dirLogInv _ _ (detect_dirLogInv s d now h)

lemma reachable_dirLogInv {s : FixedPullUpCounter} (h : Reachable s) :
    DirLogInv s := by
  induction h with
  | init => exact ⟨rfl, fun e he => by cases he⟩
  | step s kps now _ ih => exact analyze_dirLogInv s kps now ih
  | reset s _ _ => exact ⟨rfl, fun e he => by cases he⟩

lemma analyze_count_le (s : FixedPullUpCounter) (kps : Option (List Keypoint)) (now : ℚ) :
    s.count ≤ ((s.analyze_pose kps now).2).count := by
  rcases analyze_pose_shape s kps now with heq | ⟨d, p, heq⟩
  · rw [heq]
  · rw [heq, set_position_count]
    calc s.count = ((s.detect_direction_change d now).2.2).count :=
          (detect_count_eq s d now).symm
      _ ≤ _ := check_for_rep_count_ge _ now

lemma analyze_count_le_succ (s : FixedPullUpCounter) (kps : Option (List Keypoint)) (now : ℚ) :
    ((s.analyze_pose kps now).2).count ≤ s.count + 1 := by
  rcases analyze_pose_shape s kps now with heq | ⟨d, p, heq⟩ <;> rw [heq]
  · exact Nat.le_succ _
  · rw [set_position_count]
    rcases check_for_rep_cases ((s.detect_direction_change d now).2.2) now with
      hc | ⟨_, _, _, _, _, _, _, hc⟩ <;> rw [hc]
    · rw [detect_count_eq]
      exact Nat.le_succ _
    · rw [detect_count_eq]

lemma runFrames_count_le (s : FixedPullUpCounter)
    (frames : List (Option (List Keypoint) × ℚ)) :
    s.count ≤ (s.runFrames frames).count := by
  induction frames generalizing s with
  | nil => exact le_refl _
  | cons f t ih =>
    calc s.count ≤ ((s.analyze_pose f.1 f.2).2).count := analyze_count_le s f.1 f.2
      _ ≤ _ := ih _

lemma analyze_count_incr (s : FixedPullUpCounter) (kps : Option (List Keypoint)) (now : ℚ)
    (h : ((s.analyze_pose kps now).2).count = s.count + 1) :
    config.rep_cooldown < now - s.last_rep_time ∧
    ∃ d e0 e1,
      lastTwo ((s.detect_direction_change d now).2.2).direction_history = some (e0, e1) ∧
      e0.dir = Direction.down ∧ e1.dir = Direction.up ∧
      config.min_movement_range < |e1.diff - e0.diff| := by
  rcases analyze_pose_shape s kps now with heq | ⟨d, p, heq⟩
  · rw [heq] at h
    omega
  · rw [heq, set_position_count] at h
    rcases check_for_rep_cases ((s.detect_direction_change d now).2.2) now with
      hc | ⟨hcool, e0, e1, hpair, hd, hu, hr, hc⟩
    · rw [hc, detect_count_eq] at h
      omega
    · rw [detect_lrt_eq] at hcool
      exact ⟨hcool, d, e0, e1, hpair, hd, hu, hr⟩

lemma analyze_incr_lrt (s : FixedPullUpCounter) (kps : Option (List Keypoint)) (now : ℚ)
    (h : ((s.analyze_pose kps now).2).count = s.count + 1) :
    ((s.analyze_pose kps now).2).last_rep_time = now := by
  rcases analyze_pose_shape s kps now with heq | ⟨d, p, heq⟩
  · rw [heq] at h
    omega
  · rw [heq, set_position_count] at h
    rw [heq, set_position_lrt]
    rcases check_for_rep_cases ((s.detect_direction_change d now).2.2) now with
      hc | ⟨_, _, _, _, _, _, _, hc⟩
    · rw [hc, detect_count_eq] at h
      omega
    · rw [hc]

lemma analyze_cooldown_freeze (s : FixedPullUpCounter) (kps : Option (List Keypoint))
    (now : ℚ) (h : now - s.last_rep_time ≤ config.rep_cooldown) :
    ((s.analyze_pose kps now).2).count = s.count := by
  rcases analyze_pose_shape s kps now with heq | ⟨d, p, heq⟩
  · rw [heq]
  · rw [heq, set_position_count]
    rcases check_for_rep_cases ((s.detect_direction_change d now).2.2) now with
      hc | ⟨hcool, _, _, _, _, _, _, hc⟩
    · rw [hc, detect_count_eq]
    · rw [detect_lrt_eq] at hcool
      linarith

/-- C1: over any sequence of `analyze_pose` calls `count` is non-decreasing; a
single call increases it by at most 1, and an increase happens only when the
cooldown has elapsed and the direction-change log (after this frame's
classification step) ends with a validated `down`-then-`up` pair of amplitude
above `min_movement_range`. -/
theorem count_monotone (s : FixedPullUpCounter) (kps : Option (List Keypoint))
    (now : ℚ) (frames : List (Option (List Keypoint) × ℚ)) :
    s.count ≤ ((s.analyze_pose kps now).2).count ∧
    ((s.analyze_pose kps now).2).count ≤ s.count + 1 ∧
    (((s.analyze_pose kps now).2).count = s.count + 1 →
      config.rep_cooldown < now - s.last_rep_time ∧
      ∃ d e0 e1,
        lastTwo ((s.detect_direction_change d now).2.2).direction_history = some (e0, e1) ∧
        e0.dir = Direction.down ∧ e1.dir = Direction.up ∧
        config.min_movement_range < |e1.diff - e0.diff|) ∧
    s.count ≤ (s.runFrames frames).count :=
  ⟨analyze_count_le s kps now, analyze_count_le_succ s kps now,
   fun h => analyze_count_incr s kps now h, runFrames_count_le s frames⟩

/-- C1 witness at a concrete frame. -/
theorem count_monotone_witness :
    FixedPullUpCounter.init.count ≤ ((FixedPullUpCounter.init.analyze_pose none 0).2).count :=
  (count_monotone FixedPullUpCounter.init none 0 []).1

/-- C2: a frame inside the cooldown window never increments `count`; and after
a counted repetition, a second call within `rep_cooldown` seconds leaves
`count` unchanged, so the same pattern fed twice counts at most once. -/
theorem rep_cooldown_no_double (s : FixedPullUpCounter) (kps : Option (List Keypoint))
    (now : ℚ) :
    (now - s.last_rep_time ≤ config.rep_cooldown →
      ((s.analyze_pose kps now).2).count = s.count) ∧
    ∀ kps2 now2, ((s.analyze_pose kps now).2).count = s.count + 1 →
      now2 - now ≤ config.rep_cooldown →
      ((((s.analyze_pose kps now).2).analyze_pose kps2 now2).2).count
        = ((s.analyze_pose kps now).2).count := by
  refine ⟨analyze_cooldown_freeze s kps now, ?_⟩
  intro kps2 now2 hinc hcool
  apply analyze_cooldown_freeze
  rw [analyze_incr_lrt s kps now hinc]
  exact hcool

/-- C2 witness at a concrete frame inside the cooldown window. -/
theorem rep_cooldown_no_double_witness :
    ((FixedPullUpCounter.init.analyze_pose none 0).2).count = FixedPullUpCounter.init.count :=
  (rep_cooldown_no_double FixedPullUpCounter.init none 0).1
    (by norm_num [FixedPullUpCounter.init, config.rep_cooldown])

/-- C3: if the log already ends with a `down`-then-`up` pair whose amplitude is
at most `min_movement_range`, the next frame never increments `count`. -/
theorem amplitude_gate (s : FixedPullUpCounter) (kps : Option (List Keypoint)) (now : ℚ)
    (e0 e1 : DirEvent) (hpair : lastTwo s.direction_history = some (e0, e1))
    (hd : e0.dir = Direction.down) (hu : e1.dir = Direction.up)
    (hr : |e1.diff - e0.diff| ≤ config.min_movement_range) :
    ((s.analyze_pose kps now).2).count = s.count := by
  rcases analyze_pose_shape s kps now with heq | ⟨d, p, heq⟩
  · rw [heq]
  · rw [heq, set_position_count]
    rcases check_for_rep_cases ((s.detect_direction_change d now).2.2) now with
      hc | ⟨hcool, f0, f1, hpair2, hfd, hfu, hfr, hc⟩
    · rw [hc, detect_count_eq]
    · exfalso
      rcases detect_cases_full s d now with heq2 | ⟨m, _, _, _, _, _, hdh⟩
      · rw [heq2] at hpair2
        dsimp at hpair2
        rw [hpair] at hpair2
        injection hpair2 with hp
        have h0 : e0 = f0 := congrArg Prod.fst hp
        have h1 : e1 = f1 := congrArg Prod.snd hp
        rw [← h0, ← h1] at hfr
        linarith
      · rcases hdh with ⟨hdh, _⟩ | ⟨hne2, hdh⟩
        · rw [hdh, hpair] at hpair2
          injection hpair2 with hp
          have h0 : e0 = f0 := congrArg Prod.fst hp
          have h1 : e1 = f1 := congrArg Prod.snd hp
          rw [← h0, ← h1] at hfr
          linarith
        · rw [hdh, lastTwo_dequeAppend _ hpair] at hpair2
          injection hpair2 with hp
          have h0 : e1 = f0 := congrArg Prod.fst hp
          rw [← h0, hu] at hfd
          cases hfd

/-- C3 witness: a small `down`-then-`up` pair already in the log. -/
theorem amplitude_gate_witness :
    ((({ FixedPullUpCounter.init with
          direction_history :=
            [⟨Direction.down, 0, 0⟩, ⟨Direction.up, 1, 0⟩] }).analyze_pose none 0).2).count
      = ({ FixedPullUpCounter.init with
            direction_history :=
              [⟨Direction.down, 0, 0⟩, ⟨Direction.up, 1, 0⟩] }).count :=
  amplitude_gate _ none 0 ⟨Direction.down, 0, 0⟩ ⟨Direction.up, 1, 0⟩ rfl rfl rfl
    (by norm_num [config.min_movement_range])

/-- C4: a confirmation counter grows by at most 1 per frame and only grows on a
frame whose 5-sample net movement magnitude exceeds `movement_threshold`; and a
direction is confirmed (possibly replacing the previous one) only when the
matching counter has reached `min_consecutive_frames`, or when both counters
are exactly 0 (confirming `stable`); otherwise the previous confirmed direction
is retained. -/
theorem confirmation_gate (s : FixedPullUpCounter) (d now : ℚ)
    (hcu : 0 ≤ s.consecutive_up_frames) (hcd : 0 ≤ s.consecutive_down_frames) :
    (((s.detect_direction_change d now).2.2).consecutive_up_frames
        ≤ s.consecutive_up_frames + 1 ∧
     ((s.detect_direction_change d now).2.2).consecutive_down_frames
        ≤ s.consecutive_down_frames + 1) ∧
    ((s.consecutive_up_frames < ((s.detect_direction_change d now).2.2).consecutive_up_frames ∨
      s.consecutive_down_frames < ((s.detect_direction_change d now).2.2).consecutive_down_frames) →
      config.movement_threshold < (s.detect_direction_change d now).2.1) ∧
    (((s.detect_direction_change d now).2.2).current_direction = s.current_direction ∨
     (((s.detect_direction_change d now).2.2).current_direction = Direction.up ∧
       config.min_consecutive_frames
         ≤ ((s.detect_direction_change d now).2.2).consecutive_up_frames) ∨
     (((s.detect_direction_change d now).2.2).current_direction = Direction.down ∧
       config.min_consecutive_frames
         ≤ ((s.detect_direction_change d now).2.2).consecutive_down_frames) ∨
     (((s.detect_direction_change d now).2.2).current_direction = Direction.stable ∧
       ((s.detect_direction_change d now).2.2).consecutive_up_frames = 0 ∧
       ((s.detect_direction_change d now).2.2).consecutive_down_frames = 0)) :=
  ⟨detect_counters_le s d now hcu hcd,
   fun h => detect_magnitude_of_incr s d now hcu hcd h,
   detect_confirm_cases s d now⟩

/-- C4 witness at the fresh counter. -/
theorem confirmation_gate_witness :
    ((FixedPullUpCounter.init.detect_direction_change 0 0).2.2).consecutive_up_frames
        ≤ FixedPullUpCounter.init.consecutive_up_frames + 1 ∧
    ((FixedPullUpCounter.init.detect_direction_change 0 0).2.2).consecutive_down_frames
        ≤ FixedPullUpCounter.init.consecutive_down_frames + 1 :=
  (confirmation_gate FixedPullUpCounter.init 0 0 (le_refl 0) (le_refl 0)).1

/-- C5: a frame with no keypoints returns `(count, no_person)` without touching
the state, and a frame whose four required keypoints have minimum confidence
below `min_confidence` returns `(count, low_confidence)` with the whole state
(in particular `count`, `position_history`, `direction_history`) unchanged. -/
theorem frame_guards_freeze (s : FixedPullUpCounter) (now : ℚ) :
    s.analyze_pose none now = ((s.count, Status.no_person), s) ∧
    s.analyze_pose (some []) now = ((s.count, Status.no_person), s) ∧
    ∀ (kps : List Keypoint) (ls rs lw rw : Keypoint),
      kps[5]? = some ls → kps[6]? = some rs → kps[9]? = some lw → kps[10]? = some rw →
      min (min ls.conf rs.conf) (min lw.conf rw.conf) < config.min_confidence →
      s.analyze_pose (some kps) now = ((s.count, Status.low_confidence), s) := by
  refine ⟨rfl, rfl, ?_⟩
  intro kps ls rs lw rw h5 h6 h9 h10 hconf
  have hlen : ¬(kps.length = 0) := by
    obtain ⟨hlt, _⟩ := List.getElem?_eq_some.mp h5
    omega
  simp only [FixedPullUpCounter.analyze_pose, h5, h6, h9, h10]
  rw [if_neg hlen, if_pos hconf]

/-- C5 witness: a full row of zero-confidence keypoints. -/
theorem frame_guards_freeze_witness :
    FixedPullUpCounter.init.analyze_pose
        (some [⟨0,0,0⟩, ⟨0,0,0⟩, ⟨0,0,0⟩, ⟨0,0,0⟩, ⟨0,0,0⟩, ⟨0,0,0⟩,
               ⟨0,0,0⟩, ⟨0,0,0⟩, ⟨0,0,0⟩, ⟨0,0,0⟩, ⟨0,0,0⟩]) 0
      = ((FixedPullUpCounter.init.count, Status.low_confidence), FixedPullUpCounter.init) :=
  (frame_guards_freeze FixedPullUpCounter.init 0).2.2 _ ⟨0,0,0⟩ ⟨0,0,0⟩ ⟨0,0,0⟩ ⟨0,0,0⟩
    rfl rfl rfl rfl (by norm_num [config.min_confidence])

/-- C6: when a supplied non-empty frame is missing one of the four required
keypoint rows (the one computation that can fail while deriving the
differential), `analyze_pose` returns `(count, error)` and the state is left
untouched. -/
theorem missing_keypoint_error (s : FixedPullUpCounter) (now : ℚ) (kps : List Keypoint)
    (hne : kps ≠ [])
    (h : kps[5]? = none ∨ kps[6]? = none ∨ kps[9]? = none ∨ kps[10]? = none) :
    s.analyze_pose (some kps) now = ((s.count, Status.error), s) := by
  have hlen : ¬(kps.length = 0) := by simpa [List.length_eq_zero] using hne
  simp only [FixedPullUpCounter.analyze_pose]
  rw [if_neg hlen]
  rcases h with h | h | h | h
  · rw [h]
  · rcases h5 : kps[5]? with _ | v5
    · rfl
    · rw [h]
  · rcases h5 : kps[5]? with _ | v5
    · rfl
    · rcases h6 : kps[6]? with _ | v6
      · rfl
      · rw [h]
  · rcases h5 : kps[5]? with _ | v5
    · rfl
    · rcases h6 : kps[6]? with _ | v6
      · rfl
      · rcases h9 : kps[9]? with _ | v9
        · rfl
        · rw [h]

/-- C6 witness: a single-row frame. -/
theorem missing_keypoint_error_witness :
    FixedPullUpCounter.init.analyze_pose (some [⟨0,0,1⟩]) 0
      = ((FixedPullUpCounter.init.count, Status.error), FixedPullUpCounter.init) :=
  missing_keypoint_error FixedPullUpCounter.init 0 [⟨0,0,1⟩] (by simp) (Or.inl rfl)

/-- C7 counterexample: on the Scenario A differential window
`[0,0,0,0,0,20,20,20,20,20,0]` (full confidence, frames 3 s apart) the code
does not record a `down`-then-`up` transition pair at all — the log ends the
run with fewer than two entries — and `count` stays 0. -/
theorem scenarioA_refutes_expected_pair :
    (FixedPullUpCounter.init.runFrames scenarioA).count = 0 ∧
    lastTwo (FixedPullUpCounter.init.runFrames scenarioA).direction_history = none := by
  rw [runA]
  exact ⟨rfl, rfl⟩

/-- C7 (amended): the Scenario A window records exactly one transition, and it
is labelled `up` (the rise from 0 to 20 confirms after 3 qualifying frames;
the final single drop frame never reaches the confirmation threshold), so no
pair forms and `count` remains 0. -/
theorem scenarioA_one_up_transition :
    (FixedPullUpCounter.init.runFrames scenarioA).direction_history.map DirEvent.dir
        = [Direction.up] ∧
    (FixedPullUpCounter.init.runFrames scenarioA).count = 0 := by
  rw [runA]
  exact ⟨rfl, rfl⟩

/-- C8: `reset` is idempotent, restores every field of the fresh state
(`count = 0`, `position = neutral`, empty histories, zero counters, `stable`
direction, zero frame counter, initial cooldown timer), and `analyze_pose`
never decreases `count`, so `reset` is the only operation that can. -/
theorem reset_idempotent_spec (s : FixedPullUpCounter) :
    (s.reset).reset = s.reset ∧
    (s.reset).count = 0 ∧
    (s.reset).position = Status.neutral ∧
    (s.reset).position_history = [] ∧
    (s.reset).direction_history = [] ∧
    (s.reset).consecutive_up_frames = 0 ∧
    (s.reset).consecutive_down_frames = 0 ∧
    (s.reset).current_direction = Direction.stable ∧
    (s.reset).frame_count = 0 ∧
    (s.reset).last_rep_time = 0 ∧
    ∀ (kps : Option (List Keypoint)) (now : ℚ),
      s.count ≤ ((s.analyze_pose kps now).2).count :=
  ⟨rfl, rfl, rfl, rfl, rfl, rfl, rfl, rfl, rfl, rfl,
   fun kps now => analyze_count_le s kps now⟩

/-- C9: in every reachable state the two confirmation counters are never
simultaneously positive. -/
theorem counters_never_both_positive (s : FixedPullUpCounter) (h : Reachable s) :
    ¬(0 < s.consecutive_up_frames ∧ 0 < s.consecutive_down_frames) := by
  intro hc
  rcases (reachable_countersInv h).2.2 with h0 | h0 <;> rw [h0] at hc
  · exact lt_irrefl 0 hc.1
  · exact lt_irrefl 0 hc.2

/-- C9 witness at the fresh counter. -/
theorem counters_never_both_positive_witness :
    ¬(0 < FixedPullUpCounter.init.consecutive_up_frames ∧
      0 < FixedPullUpCounter.init.consecutive_down_frames) :=
  counters_never_both_positive FixedPullUpCounter.init Reachable.init

/-- C10: in every reachable state adjacent entries of the direction-change log
carry distinct direction labels, and the label of the last logged entry always
equals the currently confirmed direction. -/
theorem direction_log_alternates (s : FixedPullUpCounter) (h : Reachable s) :
    adjacentDistinct s.direction_history = true ∧
    ∀ e, s.direction_history.getLast? = some e → e.dir = s.current_direction :=
  reachable_dirLogInv h

/-- C10 witness at the fresh counter. -/
theorem direction_log_alternates_witness :
    adjacentDistinct FixedPullUpCounter.init.direction_history = true ∧
    ∀ e, FixedPullUpCounter.init.direction_history.getLast? = some e →
      e.dir = FixedPullUpCounter.init.current_direction :=
  direction_log_alternates FixedPullUpCounter.init Reachable.init
lemma stepB1 : (FixedPullUpCounter.init.detect_direction_change 0 0).2.2 = sB1 := by
  simp [FixedPullUpCounter.detect_direction_change, FixedPullUpCounter.init,
    classify_movement, step_up_counter,
    step_down_counter, confirm_direction, dequeAppend, List.getLastD, List.headD,
    config.min_consecutive_frames, config.movement_threshold, sB1,
    show ((0:ℚ) ⊔ (2 - 2⁻¹)) = 3/2 by rw [sup_eq_max]; norm_num [max_def],
    show max (0:ℚ) (2 - 1/2) = 3/2 by norm_num [max_def],
    show (2:ℚ) - 2⁻¹ < 3 by norm_num,
    show ¬((2:ℚ) ≤ 2⁻¹) by norm_num,
    show ¬((3:ℚ) ≤ 2 - 2⁻¹) by norm_num,
    show (0:ℚ) < 2 by norm_num,
    show (8:ℚ) < 10 by norm_num,
    show (8:ℚ) < 20 by norm_num,
    show ¬((8:ℚ) < 5) by norm_num,
    show ¬((8:ℚ) < 0) by norm_num,
    show ¬((5:ℚ) < -8) by norm_num,
    show ¬((0:ℚ) < -8) by norm_num,
    show ¬((10:ℚ) < -8) by norm_num,
    show ¬((20:ℚ) < -8) by norm_num,
    show (15:ℚ) - 10 = 5 by norm_num,
    show (20:ℚ) - 10 = 10 by norm_num,
    show ¬((3:ℚ) ≤ 0) by norm_num,
    show ¬((3:ℚ) ≤ 1) by norm_num,
    show ¬((3:ℚ) ≤ 2) by norm_num,
    show ¬((3:ℚ) ≤ 3/2) by norm_num,
    show ¬((3:ℚ) ≤ 5/2) by norm_num,
    show (3:ℚ) ≤ 7/2 by norm_num,
    show ¬((0:ℚ) < 0) by norm_num,
    show ¬((1:ℚ) = 0) by norm_num,
    show ¬((2:ℚ) = 0) by norm_num,
    show ¬((3/2:ℚ) = 0) by norm_num,
    show ¬((5/2:ℚ) = 0) by norm_num,
    show ¬((7/2:ℚ) = 0) by norm_num,
    show ¬((10:ℚ) = 0) by norm_num,
    show ¬((20:ℚ) = 0) by norm_num,
    show (0:ℚ) + 1 = 1 by norm_num,
    show (1:ℚ) + 1 = 2 by norm_num,
    show (3/2:ℚ) + 1 = 5/2 by norm_num,
    show (5/2:ℚ) + 1 = 7/2 by norm_num,
    show (0:ℚ) < 1 by norm_num,
    show (0:ℚ) < 3/2 by norm_num,
    show (0:ℚ) < 5/2 by norm_num]

lemma stepB2 : (sB1.detect_direction_change 0 0).2.2 = sB2 := by
  simp [FixedPullUpCounter.detect_direction_change, classify_movement, step_up_counter,
    step_down_counter, confirm_direction, dequeAppend, List.getLastD, List.headD,
    config.min_consecutive_frames, config.movement_threshold, sB1, sB2,
    show ((0:ℚ) ⊔ (2 - 2⁻¹)) = 3/2 by rw [sup_eq_max]; norm_num [max_def],
    show max (0:ℚ) (2 - 1/2) = 3/2 by norm_num [max_def],
    show (2:ℚ) - 2⁻¹ < 3 by norm_num,
    show ¬((2:ℚ) ≤ 2⁻¹) by norm_num,
    show ¬((3:ℚ) ≤ 2 - 2⁻¹) by norm_num,
    show (0:ℚ) < 2 by norm_num,
    show (8:ℚ) < 10 by norm_num,
    show (8:ℚ) < 20 by norm_num,
    show ¬((8:ℚ) < 5) by norm_num,
    show ¬((8:ℚ) < 0) by norm_num,
    show ¬((5:ℚ) < -8) by norm_num,
    show ¬((0:ℚ) < -8) by norm_num,
    show ¬((10:ℚ) < -8) by norm_num,
    show ¬((20:ℚ) < -8) by norm_num,
    show (15:ℚ) - 10 = 5 by norm_num,
    show (20:ℚ) - 10 = 10 by norm_num,
    show ¬((3:ℚ) ≤ 0) by norm_num,
    show ¬((3:ℚ) ≤ 1) by norm_num,
    show ¬((3:ℚ) ≤ 2) by norm_num,
    show ¬((3:ℚ) ≤ 3/2) by norm_num,
    show ¬((3:ℚ) ≤ 5/2) by norm_num,
    show (3:ℚ) ≤ 7/2 by norm_num,
    show ¬((0:ℚ) < 0) by norm_num,
    show ¬((1:ℚ) = 0) by norm_num,
    show ¬((2:ℚ) = 0) by norm_num,
    show ¬((3/2:ℚ) = 0) by norm_num,
    show ¬((5/2:ℚ) = 0) by norm_num,
    show ¬((7/2:ℚ) = 0) by norm_num,
    show ¬((10:ℚ) = 0) by norm_num,
    show ¬((20:ℚ) = 0) by norm_num,
    show (0:ℚ) + 1 = 1 by norm_num,
    show (1:ℚ) + 1 = 2 by norm_num,
    show (3/2:ℚ) + 1 = 5/2 by norm_num,
    show (5/2:ℚ) + 1 = 7/2 by norm_num,
    show (0:ℚ) < 1 by norm_num,
    show (0:ℚ) < 3/2 by norm_num,
    show (0:ℚ) < 5/2 by norm_num]

lemma stepB3 : (sB2.detect_direction_change 10 0).2.2 = sB3 := by
  simp [FixedPullUpCounter.detect_direction_change, classify_movement, step_up_counter,
    step_down_counter, confirm_direction, dequeAppend, List.getLastD, List.headD,
    config.min_consecutive_frames, config.movement_threshold, sB2, sB3,
    show ((0:ℚ) ⊔ (2 - 2⁻¹)) = 3/2 by rw [sup_eq_max]; norm_num [max_def],
    show max (0:ℚ) (2 - 1/2) = 3/2 by norm_num [max_def],
    show (2:ℚ) - 2⁻¹ < 3 by norm_num,
    show ¬((2:ℚ) ≤ 2⁻¹) by norm_num,
    show ¬((3:ℚ) ≤ 2 - 2⁻¹) by norm_num,
    show (0:ℚ) < 2 by norm_num,
    show (8:ℚ) < 10 by norm_num,
    show (8:ℚ) < 20 by norm_num,
    show ¬((8:ℚ) < 5) by norm_num,
    show ¬((8:ℚ) < 0) by norm_num,
    show ¬((5:ℚ) < -8) by norm_num,
    show ¬((0:ℚ) < -8) by norm_num,
    show ¬((10:ℚ) < -8) by norm_num,
    show ¬((20:ℚ) < -8) by norm_num,
    show (15:ℚ) - 10 = 5 by norm_num,
    show (20:ℚ) - 10 = 10 by norm_num,
    show ¬((3:ℚ) ≤ 0) by norm_num,
    show ¬((3:ℚ) ≤ 1) by norm_num,
    show ¬((3:ℚ) ≤ 2) by norm_num,
    show ¬((3:ℚ) ≤ 3/2) by norm_num,
    show ¬((3:ℚ) ≤ 5/2) by norm_num,
    show (3:ℚ) ≤ 7/2 by norm_num,
    show ¬((0:ℚ) < 0) by norm_num,
    show ¬((1:ℚ) = 0) by norm_num,
    show ¬((2:ℚ) = 0) by norm_num,
    show ¬((3/2:ℚ) = 0) by norm_num,
    show ¬((5/2:ℚ) = 0) by norm_num,
    show ¬((7/2:ℚ) = 0) by norm_num,
    show ¬((10:ℚ) = 0) by norm_num,
    show ¬((20:ℚ) = 0) by norm_num,
    show (0:ℚ) + 1 = 1 by norm_num,
    show (1:ℚ) + 1 = 2 by norm_num,
    show (3/2:ℚ) + 1 = 5/2 by norm_num,
    show (5/2:ℚ) + 1 = 7/2 by norm_num,
    show (0:ℚ) < 1 by norm_num,
    show (0:ℚ) < 3/2 by norm_num,
    show (0:ℚ) < 5/2 by norm_num]

lemma stepB4 : (sB3.detect_direction_change 0 0).2.2 = sB4 := by
  simp [FixedPullUpCounter.detect_direction_change, classify_movement, step_up_counter,
    step_down_counter, confirm_direction, dequeAppend, List.getLastD, List.headD,
    config.min_consecutive_frames, config.movement_threshold, sB3, sB4,
    show ((0:ℚ) ⊔ (2 - 2⁻¹)) = 3/2 by rw [sup_eq_max]; norm_num [max_def],
    show max (0:ℚ) (2 - 1/2) = 3/2 by norm_num [max_def],
    show (2:ℚ) - 2⁻¹ < 3 by norm_num,
    show ¬((2:ℚ) ≤ 2⁻¹) by norm_num,
    show ¬((3:ℚ) ≤ 2 - 2⁻¹) by norm_num,
    show (0:ℚ) < 2 by norm_num,
    show (8:ℚ) < 10 by norm_num,
    show (8:ℚ) < 20 by norm_num,
    show ¬((8:ℚ) < 5) by norm_num,
    show ¬((8:ℚ) < 0) by norm_num,
    show ¬((5:ℚ) < -8) by norm_num,
    show ¬((0:ℚ) < -8) by norm_num,
    show ¬((10:ℚ) < -8) by norm_num,
    show ¬((20:ℚ) < -8) by norm_num,
    show (15:ℚ) - 10 = 5 by norm_num,
    show (20:ℚ) - 10 = 10 by norm_num,
    show ¬((3:ℚ) ≤ 0) by norm_num,
    show ¬((3:ℚ) ≤ 1) by norm_num,
    show ¬((3:ℚ) ≤ 2) by norm_num,
    show ¬((3:ℚ) ≤ 3/2) by norm_num,
    show ¬((3:ℚ) ≤ 5/2) by norm_num,
    show (3:ℚ) ≤ 7/2 by norm_num,
    show ¬((0:ℚ) < 0) by norm_num,
    show ¬((1:ℚ) = 0) by norm_num,
    show ¬((2:ℚ) = 0) by norm_num,
    show ¬((3/2:ℚ) = 0) by norm_num,
    show ¬((5/2:ℚ) = 0) by norm_num,
    show ¬((7/2:ℚ) = 0) by norm_num,
    show ¬((10:ℚ) = 0) by norm_num,
    show ¬((20:ℚ) = 0) by norm_num,
    show (0:ℚ) + 1 = 1 by norm_num,
    show (1:ℚ) + 1 = 2 by norm_num,
    show (3/2:ℚ) + 1 = 5/2 by norm_num,
    show (5/2:ℚ) + 1 = 7/2 by norm_num,
    show (0:ℚ) < 1 by norm_num,
    show (0:ℚ) < 3/2 by norm_num,
    show (0:ℚ) < 5/2 by norm_num]

lemma stepB5 : (sB4.detect_direction_change 10 0).2.2 = sB5 := by
  simp [FixedPullUpCounter.detect_direction_change, classify_movement, step_up_counter,
    step_down_counter, confirm_direction, dequeAppend, List.getLastD, List.headD,
    config.min_consecutive_frames, config.movement_threshold, sB4, sB5,
    show ((0:ℚ) ⊔ (2 - 2⁻¹)) = 3/2 by rw [sup_eq_max]; norm_num [max_def],
    show max (0:ℚ) (2 - 1/2) = 3/2 by norm_num [max_def],
    show (2:ℚ) - 2⁻¹ < 3 by norm_num,
    show ¬((2:ℚ) ≤ 2⁻¹) by norm_num,
    show ¬((3:ℚ) ≤ 2 - 2⁻¹) by norm_num,
    show (0:ℚ) < 2 by norm_num,
    show (8:ℚ) < 10 by norm_num,
    show (8:ℚ) < 20 by norm_num,
    show ¬((8:ℚ) < 5) by norm_num,
    show ¬((8:ℚ) < 0) by norm_num,
    show ¬((5:ℚ) < -8) by norm_num,
    show ¬((0:ℚ) < -8) by norm_num,
    show ¬((10:ℚ) < -8) by norm_num,
    show ¬((20:ℚ) < -8) by norm_num,
    show (15:ℚ) - 10 = 5 by norm_num,
    show (20:ℚ) - 10 = 10 by norm_num,
    show ¬((3:ℚ) ≤ 0) by norm_num,
    show ¬((3:ℚ) ≤ 1) by norm_num,
    show ¬((3:ℚ) ≤ 2) by norm_num,
    show ¬((3:ℚ) ≤ 3/2) by norm_num,
    show ¬((3:ℚ) ≤ 5/2) by norm_num,
    show (3:ℚ) ≤ 7/2 by norm_num,
    show ¬((0:ℚ) < 0) by norm_num,
    show ¬((1:ℚ) = 0) by norm_num,
    show ¬((2:ℚ) = 0) by norm_num,
    show ¬((3/2:ℚ) = 0) by norm_num,
    show ¬((5/2:ℚ) = 0) by norm_num,
    show ¬((7/2:ℚ) = 0) by norm_num,
    show ¬((10:ℚ) = 0) by norm_num,
    show ¬((20:ℚ) = 0) by norm_num,
    show (0:ℚ) + 1 = 1 by norm_num,
    show (1:ℚ) + 1 = 2 by norm_num,
    show (3/2:ℚ) + 1 = 5/2 by norm_num,
    show (5/2:ℚ) + 1 = 7/2 by norm_num,
    show (0:ℚ) < 1 by norm_num,
    show (0:ℚ) < 3/2 by norm_num,
    show (0:ℚ) < 5/2 by norm_num]

lemma stepB6 : (sB5.detect_direction_change 10 0).2.2 = sB6 := by
  simp [FixedPullUpCounter.detect_direction_change, classify_movement, step_up_counter,
    step_down_counter, confirm_direction, dequeAppend, List.getLastD, List.headD,
    config.min_consecutive_frames, config.movement_threshold, sB5, sB6,
    show ((0:ℚ) ⊔ (2 - 2⁻¹)) = 3/2 by rw [sup_eq_max]; norm_num [max_def],
    show max (0:ℚ) (2 - 1/2) = 3/2 by norm_num [max_def],
    show (2:ℚ) - 2⁻¹ < 3 by norm_num,
    show ¬((2:ℚ) ≤ 2⁻¹) by norm_num,
    show ¬((3:ℚ) ≤ 2 - 2⁻¹) by norm_num,
    show (0:ℚ) < 2 by norm_num,
    show (8:ℚ) < 10 by norm_num,
    show (8:ℚ) < 20 by norm_num,
    show ¬((8:ℚ) < 5) by norm_num,
    show ¬((8:ℚ) < 0) by norm_num,
    show ¬((5:ℚ) < -8) by norm_num,
    show ¬((0:ℚ) < -8) by norm_num,
    show ¬((10:ℚ) < -8) by norm_num,
    show ¬((20:ℚ) < -8) by norm_num,
    show (15:ℚ) - 10 = 5 by norm_num,
    show (20:ℚ) - 10 = 10 by norm_num,
    show ¬((3:ℚ) ≤ 0) by norm_num,
    show ¬((3:ℚ) ≤ 1) by norm_num,
    show ¬((3:ℚ) ≤ 2) by norm_num,
    show ¬((3:ℚ) ≤ 3/2) by norm_num,
    show ¬((3:ℚ) ≤ 5/2) by norm_num,
    show (3:ℚ) ≤ 7/2 by norm_num,
    show ¬((0:ℚ) < 0) by norm_num,
    show ¬((1:ℚ) = 0) by norm_num,
    show ¬((2:ℚ) = 0) by norm_num,
    show ¬((3/2:ℚ) = 0) by norm_num,
    show ¬((5/2:ℚ) = 0) by norm_num,
    show ¬((7/2:ℚ) = 0) by norm_num,
    show ¬((10:ℚ) = 0) by norm_num,
    show ¬((20:ℚ) = 0) by norm_num,
    show (0:ℚ) + 1 = 1 by norm_num,
    show (1:ℚ) + 1 = 2 by norm_num,
    show (3/2:ℚ) + 1 = 5/2 by norm_num,
    show (5/2:ℚ) + 1 = 7/2 by norm_num,
    show (0:ℚ) < 1 by norm_num,
    show (0:ℚ) < 3/2 by norm_num,
    show (0:ℚ) < 5/2 by norm_num]

lemma stepB7 : (sB6.detect_direction_change 15 0).2.2 = sB7 := by
  simp [FixedPullUpCounter.detect_direction_change, classify_movement, step_up_counter,
    step_down_counter, confirm_direction, dequeAppend, List.getLastD, List.headD,
    config.min_consecutive_frames, config.movement_threshold, sB6, sB7,
    show ((0:ℚ) ⊔ (2 - 2⁻¹)) = 3/2 by rw [sup_eq_max]; norm_num [max_def],
    show max (0:ℚ) (2 - 1/2) = 3/2 by norm_num [max_def],
    show (2:ℚ) - 2⁻¹ < 3 by norm_num,
    show ¬((2:ℚ) ≤ 2⁻¹) by norm_num,
    show ¬((3:ℚ) ≤ 2 - 2⁻¹) by norm_num,
    show (0:ℚ) < 2 by norm_num,
    show (8:ℚ) < 10 by norm_num,
    show (8:ℚ) < 20 by norm_num,
    show ¬((8:ℚ) < 5) by norm_num,
    show ¬((8:ℚ) < 0) by norm_num,
    show ¬((5:ℚ) < -8) by norm_num,
    show ¬((0:ℚ) < -8) by norm_num,
    show ¬((10:ℚ) < -8) by norm_num,
    show ¬((20:ℚ) < -8) by norm_num,
    show (15:ℚ) - 10 = 5 by norm_num,
    show (20:ℚ) - 10 = 10 by norm_num,
    show ¬((3:ℚ) ≤ 0) by norm_num,
    show ¬((3:ℚ) ≤ 1) by norm_num,
    show ¬((3:ℚ) ≤ 2) by norm_num,
    show ¬((3:ℚ) ≤ 3/2) by norm_num,
    show ¬((3:ℚ) ≤ 5/2) by norm_num,
    show (3:ℚ) ≤ 7/2 by norm_num,
    show ¬((0:ℚ) < 0) by norm_num,
    show ¬((1:ℚ) = 0) by norm_num,
    show ¬((2:ℚ) = 0) by norm_num,
    show ¬((3/2:ℚ) = 0) by norm_num,
    show ¬((5/2:ℚ) = 0) by norm_num,
    show ¬((7/2:ℚ) = 0) by norm_num,
    show ¬((10:ℚ) = 0) by norm_num,
    show ¬((20:ℚ) = 0) by norm_num,
    show (0:ℚ) + 1 = 1 by norm_num,
    show (1:ℚ) + 1 = 2 by norm_num,
    show (3/2:ℚ) + 1 = 5/2 by norm_num,
    show (5/2:ℚ) + 1 = 7/2 by norm_num,
    show (0:ℚ) < 1 by norm_num,
    show (0:ℚ) < 3/2 by norm_num,
    show (0:ℚ) < 5/2 by norm_num]

lemma stepB8 : (sB7.detect_direction_change 20 0).2.2 = sB8 := by
  simp [FixedPullUpCounter.detect_direction_change, classify_movement, step_up_counter,
    step_down_counter, confirm_direction, dequeAppend, List.getLastD, List.headD,
    config.min_consecutive_frames, config.movement_threshold, sB7, sB8,
    show ((0:ℚ) ⊔ (2 - 2⁻¹)) = 3/2 by rw [sup_eq_max]; norm_num [max_def],
    show max (0:ℚ) (2 - 1/2) = 3/2 by norm_num [max_def],
    show (2:ℚ) - 2⁻¹ < 3 by norm_num,
    show ¬((2:ℚ) ≤ 2⁻¹) by norm_num,
    show ¬((3:ℚ) ≤ 2 - 2⁻¹) by norm_num,
    show (0:ℚ) < 2 by norm_num,
    show (8:ℚ) < 10 by norm_num,
    show (8:ℚ) < 20 by norm_num,
    show ¬((8:ℚ) < 5) by norm_num,
    show ¬((8:ℚ) < 0) by norm_num,
    show ¬((5:ℚ) < -8) by norm_num,
    show ¬((0:ℚ) < -8) by norm_num,
    show ¬((10:ℚ) < -8) by norm_num,
    show ¬((20:ℚ) < -8) by norm_num,
    show (15:ℚ) - 10 = 5 by norm_num,
    show (20:ℚ) - 10 = 10 by norm_num,
    show ¬((3:ℚ) ≤ 0) by norm_num,
    show ¬((3:ℚ) ≤ 1) by norm_num,
    show ¬((3:ℚ) ≤ 2) by norm_num,
    show ¬((3:ℚ) ≤ 3/2) by norm_num,
    show ¬((3:ℚ) ≤ 5/2) by norm_num,
    show (3:ℚ) ≤ 7/2 by norm_num,
    show ¬((0:ℚ) < 0) by norm_num,
    show ¬((1:ℚ) = 0) by norm_num,
    show ¬((2:ℚ) = 0) by norm_num,
    show ¬((3/2:ℚ) = 0) by norm_num,
    show ¬((5/2:ℚ) = 0) by norm_num,
    show ¬((7/2:ℚ) = 0) by norm_num,
    show ¬((10:ℚ) = 0) by norm_num,
    show ¬((20:ℚ) = 0) by norm_num,
    show (0:ℚ) + 1 = 1 by norm_num,
    show (1:ℚ) + 1 = 2 by norm_num,
    show (3/2:ℚ) + 1 = 5/2 by norm_num,
    show (5/2:ℚ) + 1 = 7/2 by norm_num,
    show (0:ℚ) < 1 by norm_num,
    show (0:ℚ) < 3/2 by norm_num,
    show (0:ℚ) < 5/2 by norm_num]

lemma stepB9 : (sB8.detect_direction_change 20 0).2.2 = sB9 := by
  simp [FixedPullUpCounter.detect_direction_change, classify_movement, step_up_counter,
    step_down_counter, confirm_direction, dequeAppend, List.getLastD, List.headD,
    config.min_consecutive_frames, config.movement_threshold, sB8, sB9,
    show ((0:ℚ) ⊔ (2 - 2⁻¹)) = 3/2 by rw [sup_eq_max]; norm_num [max_def],
    show max (0:ℚ) (2 - 1/2) = 3/2 by norm_num [max_def],
    show (2:ℚ) - 2⁻¹ < 3 by norm_num,
    show ¬((2:ℚ) ≤ 2⁻¹) by norm_num,
    show ¬((3:ℚ) ≤ 2 - 2⁻¹) by norm_num,
    show (0:ℚ) < 2 by norm_num,
    show (8:ℚ) < 10 by norm_num,
    show (8:ℚ) < 20 by norm_num,
    show ¬((8:ℚ) < 5) by norm_num,
    show ¬((8:ℚ) < 0) by norm_num,
    show ¬((5:ℚ) < -8) by norm_num,
    show ¬((0:ℚ) < -8) by norm_num,
    show ¬((10:ℚ) < -8) by norm_num,
    show ¬((20:ℚ) < -8) by norm_num,
    show (15:ℚ) - 10 = 5 by norm_num,
    show (20:ℚ) - 10 = 10 by norm_num,
    show ¬((3:ℚ) ≤ 0) by norm_num,
    show ¬((3:ℚ) ≤ 1) by norm_num,
    show ¬((3:ℚ) ≤ 2) by norm_num,
    show ¬((3:ℚ) ≤ 3/2) by norm_num,
    show ¬((3:ℚ) ≤ 5/2) by norm_num,
    show (3:ℚ) ≤ 7/2 by norm_num,
    show ¬((0:ℚ) < 0) by norm_num,
    show ¬((1:ℚ) = 0) by norm_num,
    show ¬((2:ℚ) = 0) by norm_num,
    show ¬((3/2:ℚ) = 0) by norm_num,
    show ¬((5/2:ℚ) = 0) by norm_num,
    show ¬((7/2:ℚ) = 0) by norm_num,
    show ¬((10:ℚ) = 0) by norm_num,
    show ¬((20:ℚ) = 0) by norm_num,
    show (0:ℚ) + 1 = 1 by norm_num,
    show (1:ℚ) + 1 = 2 by norm_num,
    show (3/2:ℚ) + 1 = 5/2 by norm_num,
    show (5/2:ℚ) + 1 = 7/2 by norm_num,
    show (0:ℚ) < 1 by norm_num,
    show (0:ℚ) < 3/2 by norm_num,
    show (0:ℚ) < 5/2 by norm_num]

/-- Evaluation of the whole decay-window run through the classifier. -/
lemma runB : FixedPullUpCounter.init.runDiffs decayDiffs = sB9 := by
  simp only [FixedPullUpCounter.runDiffs, decayDiffs, List.foldl]
  rw [stepB1, stepB2, stepB3, stepB4, stepB5, stepB6, stepB7, stepB8, stepB9]

/-- Evaluation of the raw per-frame classifications of the decay window. -/
lemma rawB : rawDirections decayDiffs
    = [Direction.starting, Direction.starting, Direction.starting, Direction.starting,
       Direction.up, Direction.up, Direction.stable, Direction.up, Direction.up] := by
  simp [rawDirections, decayDiffs, dequeAppend, classify_movement, List.getLastD, List.headD,
    config.movement_threshold,
    show ((0:ℚ) ⊔ (2 - 2⁻¹)) = 3/2 by rw [sup_eq_max]; norm_num [max_def],
    show max (0:ℚ) (2 - 1/2) = 3/2 by norm_num [max_def],
    show (2:ℚ) - 2⁻¹ < 3 by norm_num,
    show ¬((2:ℚ) ≤ 2⁻¹) by norm_num,
    show ¬((3:ℚ) ≤ 2 - 2⁻¹) by norm_num,
    show (0:ℚ) < 2 by norm_num,
    show (8:ℚ) < 10 by norm_num,
    show (8:ℚ) < 20 by norm_num,
    show ¬((8:ℚ) < 5) by norm_num,
    show ¬((8:ℚ) < 0) by norm_num,
    show ¬((5:ℚ) < -8) by norm_num,
    show ¬((0:ℚ) < -8) by norm_num,
    show ¬((10:ℚ) < -8) by norm_num,
    show ¬((20:ℚ) < -8) by norm_num,
    show (15:ℚ) - 10 = 5 by norm_num,
    show (20:ℚ) - 10 = 10 by norm_num,
    show ¬((3:ℚ) ≤ 0) by norm_num,
    show ¬((3:ℚ) ≤ 1) by norm_num,
    show ¬((3:ℚ) ≤ 2) by norm_num,
    show ¬((3:ℚ) ≤ 3/2) by norm_num,
    show ¬((3:ℚ) ≤ 5/2) by norm_num,
    show (3:ℚ) ≤ 7/2 by norm_num,
    show ¬((0:ℚ) < 0) by norm_num,
    show ¬((1:ℚ) = 0) by norm_num,
    show ¬((2:ℚ) = 0) by norm_num,
    show ¬((3/2:ℚ) = 0) by norm_num,
    show ¬((5/2:ℚ) = 0) by norm_num,
    show ¬((7/2:ℚ) = 0) by norm_num,
    show ¬((10:ℚ) = 0) by norm_num,
    show ¬((20:ℚ) = 0) by norm_num,
    show (0:ℚ) + 1 = 1 by norm_num,
    show (1:ℚ) + 1 = 2 by norm_num,
    show (3/2:ℚ) + 1 = 5/2 by norm_num,
    show (5/2:ℚ) + 1 = 7/2 by norm_num,
    show (0:ℚ) < 1 by norm_num,
    show (0:ℚ) < 3/2 by norm_num,
    show (0:ℚ) < 5/2 by norm_num]

/-- C4 counterexample: the differential window `[0,0,10,0,10,10,15,20,20]`
contains no 3 consecutive frames classified in one direction (its raw
classification trace is `up, up, stable, up, up` after the 4 `starting`
frames), yet because a sub-threshold frame decays the counter by only 0.5, the
counter still reaches 7/2 ≥ 3 and `current_direction` changes from `stable` to
`up`. -/
theorem confirmation_gate_counterexample :
    rawDirections decayDiffs
        = [Direction.starting, Direction.starting, Direction.starting, Direction.starting,
           Direction.up, Direction.up, Direction.stable, Direction.up, Direction.up] ∧
    noThreeConsecutiveQualifying (rawDirections decayDiffs) = true ∧
    (FixedPullUpCounter.init.runDiffs decayDiffs).current_direction = Direction.up ∧
    FixedPullUpCounter.init.current_direction = Direction.stable := by
  refine ⟨rawB, ?_, ?_, rfl⟩
  · rw [rawB]
    decide
  · rw [runB]
    rfl
